import Mathlib

/-!
Verification of the serialization/validation core of the highcharts-core
repository (a typed object model with attribute-level validation and
bidirectional conversion between snake_case keyword form and camelCase
external dict form).

The embedding follows the Python sources under src/highcharts/.  Machine
numerics are embedded as Int (decimal floats are outside the modelled value
universe).  Python exceptions are embedded as Except values with an explicit
error taxonomy.  Definitions that embed code of this repository that is not
under src/ (the metaclass helpers, constants, validator_collection wrappers,
Gradient/Pattern, CartesianData) carry a doc comment starting with
Modelled from the spec.
-/

set_option maxHeartbeats 1000000

/-- Error taxonomy of the serialization core, following spec section 7.
In the Python code all of these surface as HighchartsValueError or as
validator_collection errors (subclasses of ValueError); the constructors
record which role the raised error plays. -/
inductive HCError where
  | validationError
  | unresolvedUnionType
  | unsupportedDimensionality (length : Nat)
  | uncoercibleElement
  | valueError
deriving DecidableEq

/-- A JSON-compatible external value as produced by serialization.
JVal.null embeds the Python None that marks an unset field inside an
untrimmed export dict; JVal.enforcedNull embeds constants.EnforcedNull,
which serializes as an explicit null. -/
inductive JVal where
  | null
  | enforcedNull
  | boolean (b : Bool)
  | num (n : Int)
  | str (s : String)
  | obj (entries : List (String × JVal))
  | arr (items : List JVal)

/-- True exactly on the unset marker JVal.null. -/
def JVal.isNull : JVal → Bool
  | .null => true
  | _ => false

/-- A validated x position: CartesianData.x and XRangeData.x accept either a
numeric value or a (non-empty, non-numeric) string; dates are outside the
modelled value universe. -/
inductive XVal where
  | num (n : Int)
  | str (s : String)
deriving DecidableEq

/-- A validated axis reference of AnnotationPoint.x_axis / y_axis: either the
index of the axis (int) or its id (string). -/
inductive AxisRef where
  | idx (n : Int)
  | id (s : String)
deriving DecidableEq

/-- Embedding of annotations/points.py AnnotationPoint: fields x, x_axis, y,
y_axis, each optional. -/
structure AnnotationPoint where
  x : Option Int
  x_axis : Option AxisRef
  y : Option Int
  y_axis : Option AxisRef
deriving DecidableEq

/-- Embedding of accessibility/screen_reader_section.py ScreenReaderSection:
seven optional string fields, in the order the constructor sets them. -/
structure ScreenReaderSection where
  after_chart_format : Option String
  after_chart_formatter : Option String
  axis_range_date_format : Option String
  before_chart_format : Option String
  before_chart_formatter : Option String
  on_play_as_sound_click : Option String
  on_view_data_table_click : Option String
deriving DecidableEq

/-- Embedding of series/data/bar.py WindBarbData.  Modelled from the spec for
the inherited part: CartesianData (series/data/cartesian.py) is not under
src/, so of its fields only the positional dimensions x and y (spec section 3)
are carried; its remaining per-field declarations are schema volume that spec
section 1 scopes out and that defaults to None in every claim at issue. -/
structure WindBarbData where
  x : Option XVal
  y : Option Int
  value : Option Int
  direction : Option Int
deriving DecidableEq

/-- A partial-fill payload.  Modelled from the spec:
utility_classes.partial_fill.PartialFillOptions is not under src/; its decoded
content is opaque to every claim, so it is carried as its external dict. -/
def PartialFillOptions : Type := List (String × JVal)

/-- Embedding of series/data/bar.py XRangeData: partial_fill and x2 plus the
positional x and y carried from CartesianData (see WindBarbData). -/
structure XRangeData where
  partial_fill : Option PartialFillOptions
  x2 : Option XVal
  x : Option XVal
  y : Option Int

/-- Embedding of a weighted connection data point.  Modelled from the spec:
series/data/connections.py is not under src/; the data docstring of
DependencyWheelSeries (in src) says the collection accepts
WeightedConnectionData instances or dicts coercible to them. -/
structure WeightedConnectionData where
  from_ : Option String
  to_ : Option String
  weight : Option Int
deriving DecidableEq

/-- A resolved border-color union value: a plain color string, a Gradient
variant or a Pattern variant.  Modelled from the spec for the payloads:
utility_classes.gradients / patterns are not under src/, so a Gradient or
Pattern instance is carried as its decoded external dict. -/
inductive ColorVal where
  | plain (s : String)
  | grad (payload : List (String × JVal))
  | pat (payload : List (String × JVal))

/-- Embedding of series/data/bar.py BarData: border_color, border_width,
dash_style, point_width plus the positional x and y carried from
CartesianData (see WindBarbData). -/
structure BarData where
  border_color : Option ColorVal
  border_width : Option Int
  dash_style : Option String
  point_width : Option Int
  x : Option XVal
  y : Option Int

/-- A raw Python value as it arrives at a setter or a from_dict call: a
scalar, the EnforcedNull sentinel, a dict, a sequence, or an already-built
instance of one of the embedded classes. -/
inductive RawDoc where
  | none
  | enforcedNull
  | boolean (b : Bool)
  | num (n : Int)
  | str (s : String)
  | dict (entries : List (String × RawDoc))
  | seq (items : List RawDoc)
  | gradientInst (payload : List (String × JVal))
  | patternInst (payload : List (String × JVal))
  | barInst (b : BarData)
  | windBarbInst (w : WindBarbData)
  | xRangeInst (p : XRangeData)
  | connectionInst (c : WeightedConnectionData)

/-- Python truthiness of a raw value: None, False, 0, the empty string, the
empty dict and the empty sequence are falsy; EnforcedNull and every instance
is truthy. -/
def truthyRaw : RawDoc → Bool
  | .none => false
  | .enforcedNull => true
  | .boolean b => b
  | .num n => n != 0
  | .str s => !(s == "")
  | .dict d => !d.isEmpty
  | .seq l => !l.isEmpty
  | _ => true

/-- Python falsiness, the test `not value` used throughout the setters. -/
def falsyRaw (v : RawDoc) : Bool := !truthyRaw v

/-- Python dict lookup (first entry with the key; the embedded dicts carry
unique keys, as Python dicts do). -/
def dictGet {α : Type} (d : List (String × α)) (k : String) : Option α :=
  match d with
  | [] => Option.none
  | (k0, v) :: rest => if k0 = k then some v else dictGet rest k

/-- Python dict.pop with a default, as used by every _get_kwargs_from_dict:
the popped keys are pairwise distinct, so successive destructive pops agree
with lookups in the original dict. -/
def dictPop {α : Type} (d : List (String × α)) (k : String) (dflt : α) : α :=
  (dictGet d k).getD dflt

/-- Python dict assignment d[k] = v: replaces the value at an existing key in
place, else appends the new entry. -/
def dictSet (d : List (String × JVal)) (k : String) (v : JVal) : List (String × JVal) :=
  match d with
  | [] => [(k, v)]
  | (k0, v0) :: rest => if k0 = k then (k0, v) :: rest else (k0, v0) :: dictSet rest k v

/-- The merge loop of BarData.to_dict (and, per spec section 4.4, of
mro_to_dict): every entry of the parent dict is written over the child dict,
so the parent takes precedence on colliding keys. -/
def mergeParent (child parent : List (String × JVal)) : List (String × JVal) :=
  parent.foldl (fun acc kv => dictSet acc kv.1 kv.2) child

/-- Modelled from the spec: HighchartsMeta.trim_dict (metaclasses.py is not
under src/).  Per spec section 4.3 a key is omitted from the export iff its
value is the unset sentinel (Python None, embedded as JVal.null); the
EnforcedNull sentinel and every concrete value are kept. -/
def trim_dict (untrimmed : List (String × JVal)) : List (String × JVal) :=
  untrimmed.filter (fun kv => !kv.2.isNull)

mutual

/-- Conversion of a serialized external value back into a raw input value, the
identity reading of a produced dict when it is fed back into from_dict (in
Python both sides are the same dict type). -/
def jvalToRaw : JVal → RawDoc
  | .null => .none
  | .enforcedNull => .enforcedNull
  | .boolean b => .boolean b
  | .num n => .num n
  | .str s => .str s
  | .obj es => .dict (jvalEntriesToRaw es)
  | .arr l => .seq (jvalItemsToRaw l)

/-- Entry-wise jvalToRaw over a dict payload. -/
def jvalEntriesToRaw : List (String × JVal) → List (String × RawDoc)
  | [] => []
  | (k, v) :: rest => (k, jvalToRaw v) :: jvalEntriesToRaw rest

/-- Element-wise jvalToRaw over an array payload. -/
def jvalItemsToRaw : List JVal → List RawDoc
  | [] => []
  | v :: rest => jvalToRaw v :: jvalItemsToRaw rest

end

/-- Map a serialized dict to the raw dict from_dict receives. -/
def toRawEntries (l : List (String × JVal)) : List (String × RawDoc) :=
  l.map (fun kv => (kv.1, jvalToRaw kv.2))

mutual

/-- Conversion of a raw value into a pure external value, used when a raw dict
is absorbed verbatim as a decoded payload; fails on instance values. -/
def rawToJVal : RawDoc → Option JVal
  | .none => some .null
  | .enforcedNull => some .enforcedNull
  | .boolean b => some (.boolean b)
  | .num n => some (.num n)
  | .str s => some (.str s)
  | .dict es => (rawEntriesToJVal es).map .obj
  | .seq l => (rawItemsToJVal l).map .arr
  | _ => Option.none

/-- Entry-wise rawToJVal over a raw dict. -/
def rawEntriesToJVal : List (String × RawDoc) → Option (List (String × JVal))
  | [] => some []
  | (k, v) :: rest =>
    match rawToJVal v, rawEntriesToJVal rest with
    | some j, some js => some ((k, j) :: js)
    | _, _ => Option.none

/-- Element-wise rawToJVal over a raw sequence. -/
def rawItemsToJVal : List RawDoc → Option (List JVal)
  | [] => some []
  | v :: rest =>
    match rawToJVal v, rawItemsToJVal rest with
    | some j, some js => some (j :: js)
    | _, _ => Option.none

end

/-- The numeric value of a decimal digit character, used by the modelled
string-to-int coercion. -/
def charDigit (c : Char) : Option Nat :=
  if c = '0' then some 0
  else if c = '1' then some 1
  else if c = '2' then some 2
  else if c = '3' then some 3
  else if c = '4' then some 4
  else if c = '5' then some 5
  else if c = '6' then some 6
  else if c = '7' then some 7
  else if c = '8' then some 8
  else if c = '9' then some 9
  else Option.none

/-- Parse a non-empty run of decimal digits into a number. -/
def parseDigits : List Char → Nat → Option Nat
  | [], acc => some acc
  | c :: cs, acc =>
    match charDigit c with
    | some d => parseDigits cs (acc * 10 + d)
    | Option.none => Option.none

/-- Modelled from the spec: the string-to-int coercion performed by the
validator_collection numeric and integer validators (int(value) in Python):
an optional leading minus sign followed by at least one decimal digit. -/
def strToIntOpt (s : String) : Option Int :=
  match s.data with
  | [] => Option.none
  | '-' :: rest =>
    match rest with
    | [] => Option.none
    | _ => (parseDigits rest 0).map (fun n => -(n : Int))
  | l => (parseDigits l 0).map (fun n => (n : Int))

/-- Modelled from the spec: validators.numeric of validator_collection
(section 4.1).  None is accepted iff allow_empty; ints pass; booleans coerce
to 0 / 1 as in Python; a string passes iff it parses as a number; everything
else fails.  Decimal floats are outside the modelled value universe. -/
def validateNumeric (allowEmpty : Bool) : RawDoc → Except HCError (Option Int)
  | .none => if allowEmpty then .ok Option.none else .error .validationError
  | .num n => .ok (some n)
  | .boolean b => .ok (some (cond b 1 0))
  | .str s =>
    match strToIntOpt s with
    | some n => .ok (some n)
    | Option.none => .error .validationError
  | _ => .error .validationError

/-- Modelled from the spec: validators.numeric with a minimum bound, as used
by BarData.border_width (minimum = 0). -/
def validateNumericMin (allowEmpty : Bool) (lo : Int) (v : RawDoc) :
    Except HCError (Option Int) :=
  match validateNumeric allowEmpty v with
  | .error e => .error e
  | .ok Option.none => .ok Option.none
  | .ok (some n) => if n < lo then .error .validationError else .ok (some n)

/-- Modelled from the spec: validators.string of validator_collection
(section 4.1).  A falsy value fails unless allow_empty, in which case it
yields None; a (then necessarily non-empty) string passes; any other truthy
value cannot be coerced and fails. -/
def validateString (allowEmpty : Bool) (v : RawDoc) : Except HCError (Option String) :=
  if falsyRaw v then
    if allowEmpty then .ok Option.none else .error .validationError
  else
    match v with
    | .str s => .ok (some s)
    | _ => .error .validationError

/-- Setter of AnnotationPoint.x_axis and y_axis (annotations/points.py): None
or the empty string clear the field; otherwise validators.integer is tried
first (coercing numeric strings), then validators.string; any remaining value
raises HighchartsValueError. -/
def setAxisRef (v : RawDoc) : Except HCError (Option AxisRef) :=
  match v with
  | .none => .ok Option.none
  | .num n => .ok (some (.idx n))
  | .boolean b => .ok (some (.idx (cond b 1 0)))
  | .str s =>
    if s = "" then .ok Option.none
    else
      match strToIntOpt s with
      | some n => .ok (some (.idx n))
      | Option.none => .ok (some (.id s))
  | _ => .error .valueError

/-- Serialization of an optional numeric field. -/
def serNumOpt : Option Int → JVal
  | Option.none => .null
  | some n => .num n

/-- Serialization of an optional string field. -/
def serStrOpt : Option String → JVal
  | Option.none => .null
  | some s => .str s

/-- Serialization of an optional axis reference. -/
def serAxisOpt : Option AxisRef → JVal
  | Option.none => .null
  | some (.idx n) => .num n
  | some (.id s) => .str s

/-- AnnotationPoint.__init__: pops x, x_axis, y, y_axis in that order and runs
each through its validating setter. -/
def AnnotationPoint.fromKwargs (x x_axis y y_axis : RawDoc) :
    Except HCError AnnotationPoint :=
  match validateNumeric true x with
  | .error e => .error e
  | .ok xv =>
  match setAxisRef x_axis with
  | .error e => .error e
  | .ok xa =>
  match validateNumeric true y with
  | .error e => .error e
  | .ok yv =>
  match setAxisRef y_axis with
  | .error e => .error e
  | .ok ya => .ok ⟨xv, xa, yv, ya⟩

/-- AnnotationPoint.from_dict: pops x, xAxis, y, yAxis (default None) and
constructs through the keyword path. -/
def AnnotationPoint.from_dict (d : List (String × RawDoc)) :
    Except HCError AnnotationPoint :=
  AnnotationPoint.fromKwargs (dictPop d "x" .none) (dictPop d "xAxis" .none)
    (dictPop d "y" .none) (dictPop d "yAxis" .none)

/-- AnnotationPoint.to_dict: returns all four keys untrimmed, exactly as the
source does (no trim_dict call). -/
def AnnotationPoint.to_dict (p : AnnotationPoint) : List (String × JVal) :=
  [("x", serNumOpt p.x), ("xAxis", serAxisOpt p.x_axis),
   ("y", serNumOpt p.y), ("yAxis", serAxisOpt p.y_axis)]

/-- Modelled from the spec: constants.DEFAULT_AFTER_CHART_FORMAT (the
constants module is not under src/).  Its literal content never enters a
claim, only its identity and non-emptiness; a brace-free placeholder stands
for the real template string. -/
def DEFAULT_AFTER_CHART_FORMAT : String := "defaultAfterChartFormat"

/-- Modelled from the spec: constants.DEFAULT_AXIS_RANGE_DATE_FORMAT (the
constants module is not under src/); only identity and non-emptiness matter. -/
def DEFAULT_AXIS_RANGE_DATE_FORMAT : String := "%Y-%m-%d"

/-- Modelled from the spec: constants.DEFAULT_BEFORE_CHART_FORMAT (the
constants module is not under src/); only identity and non-emptiness matter. -/
def DEFAULT_BEFORE_CHART_FORMAT : String := "defaultBeforeChartFormat"

/-- The identity test `value is None` of the format setters. -/
def RawDoc.isNone : RawDoc → Bool
  | .none => true
  | _ => false

/-- Setter of ScreenReaderSection.after_chart_format: None stays None, any
other falsy value becomes the empty string, a truthy value must pass
non-empty string validation. -/
def setAfterChartFormat (v : RawDoc) : Except HCError (Option String) :=
  if v.isNone then .ok Option.none
  else if falsyRaw v then .ok (some "")
  else
    match validateString false v with
    | .error e => .error e
    | .ok s => .ok s

/-- Setter of ScreenReaderSection.before_chart_format, identical in shape to
the after_chart_format setter. -/
def setBeforeChartFormat (v : RawDoc) : Except HCError (Option String) :=
  if v.isNone then .ok Option.none
  else if falsyRaw v then .ok (some "")
  else
    match validateString false v with
    | .error e => .error e
    | .ok s => .ok s

/-- ScreenReaderSection.__init__ applied to already-popped keyword values:
runs the seven setters in source order. -/
def ScreenReaderSection.fromKwargs (r1 r2 r3 r4 r5 r6 r7 : RawDoc) :
    Except HCError ScreenReaderSection :=
  match setAfterChartFormat r1 with
  | .error e => .error e
  | .ok a1 =>
  match validateString true r2 with
  | .error e => .error e
  | .ok a2 =>
  match validateString true r3 with
  | .error e => .error e
  | .ok a3 =>
  match setBeforeChartFormat r4 with
  | .error e => .error e
  | .ok a4 =>
  match validateString true r5 with
  | .error e => .error e
  | .ok a5 =>
  match validateString true r6 with
  | .error e => .error e
  | .ok a6 =>
  match validateString true r7 with
  | .error e => .error e
  | .ok a7 => .ok ⟨a1, a2, a3, a4, a5, a6, a7⟩

/-- ScreenReaderSection.from_dict: pops the seven camelCase keys, substituting
the schema default for each absent one, then constructs through the keyword
path. -/
def ScreenReaderSection.from_dict (d : List (String × RawDoc)) :
    Except HCError ScreenReaderSection :=
  ScreenReaderSection.fromKwargs
    (dictPop d "afterChartFormat" (.str DEFAULT_AFTER_CHART_FORMAT))
    (dictPop d "afterChartFormatter" .none)
    (dictPop d "axisRangeDateFormat" (.str DEFAULT_AXIS_RANGE_DATE_FORMAT))
    (dictPop d "beforeChartFormat" (.str DEFAULT_BEFORE_CHART_FORMAT))
    (dictPop d "beforeChartFormatter" .none)
    (dictPop d "onPlayAsSoundClick" .none)
    (dictPop d "onViewDataTableClick" .none)

/-- The untrimmed export dict of ScreenReaderSection.to_json. -/
def ScreenReaderSection.untrimmedJson (s : ScreenReaderSection) :
    List (String × JVal) :=
  [("afterChartFormat", serStrOpt s.after_chart_format),
   ("afterChartFormatter", serStrOpt s.after_chart_formatter),
   ("axisRangeDateFormat", serStrOpt s.axis_range_date_format),
   ("beforeChartFormat", serStrOpt s.before_chart_format),
   ("beforeChartFormatter", serStrOpt s.before_chart_formatter),
   ("onPlayAsSoundClick", serStrOpt s.on_play_as_sound_click),
   ("onViewDataTableClick", serStrOpt s.on_view_data_table_click)]

/-- ScreenReaderSection.to_json: the untrimmed seven-key dict passed through
trim_dict. -/
def ScreenReaderSection.to_json (s : ScreenReaderSection) : List (String × JVal) :=
  trim_dict (ScreenReaderSection.untrimmedJson s)

/-- Setter of the positional x value, embedded from the XRangeData.x setter in
src (series/data/bar.py): None clears; a datetime/date (outside the modelled
universe) or numeric value is kept numerically, numeric strings coerce; any
remaining value must pass (non-empty) string validation. -/
def setXVal (v : RawDoc) : Except HCError (Option XVal) :=
  match v with
  | .none => .ok Option.none
  | .num n => .ok (some (.num n))
  | .boolean b => .ok (some (.num (cond b 1 0)))
  | .str s =>
    match strToIntOpt s with
    | some n => .ok (some (.num n))
    | Option.none =>
      if s = "" then .error .validationError else .ok (some (.str s))
  | _ => .error .validationError

/-- Serialization of an optional x value. -/
def serXValOpt : Option XVal → JVal
  | Option.none => .null
  | some (.num n) => .num n
  | some (.str s) => .str s

/-- The element loop shared by every from_setter: coerce the items in order
and raise the first failure, exactly as the Python for-loop with append
does. -/
def exceptMapM {α β : Type} (f : α → Except HCError β) : List α → Except HCError (List β)
  | [] => .ok []
  | a :: rest =>
    match f a with
    | .error e => .error e
    | .ok b =>
      match exceptMapM f rest with
      | .error e => .error e
      | .ok bs => .ok (b :: bs)

/-- checkers.is_iterable with its default forbid_literals: dicts and
sequences are iterable, strings and scalars are not, nor are instances. -/
def isIterableRaw : RawDoc → Bool
  | .seq _ => true
  | .dict _ => true
  | _ => false

/-- The items a from_setter loops over: the elements of a sequence, the keys
of a dict (Python iterates dict keys), or the single-element wrapping of a
non-iterable value. -/
def rawItems : RawDoc → List RawDoc
  | .seq l => l
  | .dict d => d.map (fun kv => RawDoc.str kv.1)
  | v => [v]

/-- WindBarbData._get_kwargs_from_dict (series/data/bar.py): pops every
declared camelCase key with default None and returns the snake_case keyword
dict. -/
def WindBarbData.getKwargsFromDict (d : List (String × RawDoc)) :
    List (String × RawDoc) :=
  [("accessibility", dictPop d "accessibility" .none),
   ("class_name", dictPop d "className" .none),
   ("color", dictPop d "color" .none),
   ("color_index", dictPop d "colorIndex" .none),
   ("custom", dictPop d "custom" .none),
   ("description", dictPop d "description" .none),
   ("events", dictPop d "events" .none),
   ("id", dictPop d "id" .none),
   ("label_rank", dictPop d "labelrank" .none),
   ("name", dictPop d "name" .none),
   ("selected", dictPop d "selected" .none),
   ("data_labels", dictPop d "dataLabels" .none),
   ("drag_drop", dictPop d "dragDrop" .none),
   ("drilldown", dictPop d "drilldown" .none),
   ("marker", dictPop d "marker" .none),
   ("x", dictPop d "x" .none),
   ("y", dictPop d "y" .none),
   ("direction", dictPop d "direction" .none),
   ("value", dictPop d "value" .none)]

/-- WindBarbData.__init__ applied to a keyword dict: sets direction and value
first, then delegates x and y to the CartesianData constructor (modelled from
the spec, see WindBarbData); the keys not modelled default to None and are
inert. -/
def WindBarbData.fromKwargsList (kw : List (String × RawDoc)) :
    Except HCError WindBarbData :=
  match validateNumeric true (dictPop kw "direction" .none) with
  | .error e => .error e
  | .ok dir =>
  match validateNumeric true (dictPop kw "value" .none) with
  | .error e => .error e
  | .ok vl =>
  match setXVal (dictPop kw "x" .none) with
  | .error e => .error e
  | .ok xv =>
  match validateNumeric true (dictPop kw "y" .none) with
  | .error e => .error e
  | .ok yv => .ok ⟨xv, yv, vl, dir⟩

/-- WindBarbData.from_dict: keyword extraction followed by construction. -/
def WindBarbData.from_dict (d : List (String × RawDoc)) :
    Except HCError WindBarbData :=
  WindBarbData.fromKwargsList (WindBarbData.getKwargsFromDict d)

/-- The designated empty wind-barb point produced for a null slot:
cls(x = None, value = None, direction = None, y = None). -/
def WindBarbData.empty : WindBarbData := ⟨Option.none, Option.none, Option.none, Option.none⟩

/-- One element of the WindBarbData.from_setter loop: an instance is kept, a
dict decodes via from_dict, a null marker yields the empty point, a sequence
of length 4 destructures as (x, value, direction, y) and of length 3 as
(x, value, direction), any other length fails with the dimensionality error,
and any remaining value fails as uncoercible. -/
def coerceWindBarbItem (item : RawDoc) : Except HCError WindBarbData :=
  match item with
  | .windBarbInst w => .ok w
  | .dict d => WindBarbData.from_dict d
  | .none =>
    WindBarbData.fromKwargsList
      [("x", .none), ("value", .none), ("direction", .none), ("y", .none)]
  | .enforcedNull =>
    WindBarbData.fromKwargsList
      [("x", .none), ("value", .none), ("direction", .none), ("y", .none)]
  | .seq l =>
    match l with
    | [a, b, c, d] =>
      WindBarbData.from_dict [("x", a), ("value", b), ("direction", c), ("y", d)]
    | [a, b, c] =>
      WindBarbData.from_dict [("x", a), ("value", b), ("direction", c)]
    | _ => .error (.unsupportedDimensionality l.length)
  | _ => .error .uncoercibleElement

/-- WindBarbData.from_setter: an empty value gives the empty collection, a
non-iterable value is wrapped, and the loop coerces each item in order. -/
def WindBarbData.from_setter (value : RawDoc) : Except HCError (List WindBarbData) :=
  if falsyRaw value then .ok []
  else exceptMapM coerceWindBarbItem (rawItems value)

/-- Setter of XRangeData.partial_fill.  Modelled from the spec: the
class_sensitive(PartialFillOptions) decorator coerces None to None and a dict
to a decoded PartialFillOptions instance, and rejects other values. -/
def setPartialFill (v : RawDoc) : Except HCError (Option PartialFillOptions) :=
  match v with
  | .none => .ok Option.none
  | .dict d =>
    match rawEntriesToJVal d with
    | some payload => .ok (some payload)
    | Option.none => .error .validationError
  | _ => .error .validationError

/-- XRangeData._get_kwargs_from_dict (series/data/bar.py): the declared pops
with default None. -/
def XRangeData.getKwargsFromDict (d : List (String × RawDoc)) :
    List (String × RawDoc) :=
  [("accessibility", dictPop d "accessibility" .none),
   ("class_name", dictPop d "className" .none),
   ("color", dictPop d "color" .none),
   ("color_index", dictPop d "colorIndex" .none),
   ("custom", dictPop d "custom" .none),
   ("description", dictPop d "description" .none),
   ("events", dictPop d "events" .none),
   ("id", dictPop d "id" .none),
   ("label_rank", dictPop d "labelrank" .none),
   ("name", dictPop d "name" .none),
   ("selected", dictPop d "selected" .none),
   ("data_labels", dictPop d "dataLabels" .none),
   ("drag_drop", dictPop d "dragDrop" .none),
   ("drilldown", dictPop d "drilldown" .none),
   ("marker", dictPop d "marker" .none),
   ("x", dictPop d "x" .none),
   ("y", dictPop d "y" .none),
   ("partial_fill", dictPop d "partialFill" .none),
   ("x2", dictPop d "x2" .none)]

/-- XRangeData.__init__ applied to a keyword dict: sets partial_fill and x2
first, then delegates x and y to the CartesianData constructor. -/
def XRangeData.fromKwargsList (kw : List (String × RawDoc)) :
    Except HCError XRangeData :=
  match setPartialFill (dictPop kw "partial_fill" .none) with
  | .error e => .error e
  | .ok pf =>
  match setXVal (dictPop kw "x2" .none) with
  | .error e => .error e
  | .ok x2v =>
  match setXVal (dictPop kw "x" .none) with
  | .error e => .error e
  | .ok xv =>
  match validateNumeric true (dictPop kw "y" .none) with
  | .error e => .error e
  | .ok yv => .ok ⟨pf, x2v, xv, yv⟩

/-- XRangeData.from_dict: keyword extraction followed by construction. -/
def XRangeData.from_dict (d : List (String × RawDoc)) : Except HCError XRangeData :=
  XRangeData.fromKwargsList (XRangeData.getKwargsFromDict d)

/-- One element of the XRangeData.from_setter loop: an instance is kept, a
dict decodes via from_dict, a null marker stores the bare None placeholder
(the source appends as_obj = None, not an empty point), and any remaining
value fails as uncoercible. -/
def coerceXRangeItem (item : RawDoc) : Except HCError (Option XRangeData) :=
  match item with
  | .xRangeInst p => .ok (some p)
  | .dict d =>
    match XRangeData.from_dict d with
    | .error e => .error e
    | .ok p => .ok (some p)
  | .none => .ok Option.none
  | .enforcedNull => .ok Option.none
  | _ => .error .uncoercibleElement

/-- XRangeData.from_setter: an empty value gives the empty collection, a
non-iterable value is wrapped, and the loop coerces each item in order. -/
def XRangeData.from_setter (value : RawDoc) :
    Except HCError (List (Option XRangeData)) :=
  if falsyRaw value then .ok []
  else exceptMapM coerceXRangeItem (rawItems value)

/-- True when the second character list is an initial segment of the first. -/
def charsStartWith : List Char → List Char → Bool
  | _, [] => true
  | [], _ :: _ => false
  | c :: cs, d :: ds => c = d && charsStartWith cs ds

/-- True when the second character list occurs contiguously in the first. -/
def charsContain : List Char → List Char → Bool
  | [], sub => sub.isEmpty
  | c :: cs, sub => charsStartWith (c :: cs) sub || charsContain cs sub

/-- Python substring membership test `sub in s` for strings. -/
def strContains (s sub : String) : Bool := charsContain s.data sub.data

/-- Python key membership test `k in d` for dicts. -/
def dictHasKey (d : List (String × RawDoc)) (k : String) : Bool :=
  d.any (fun kv => kv.1 = k)

/-- Modelled from the spec: Gradient.from_json (utility_classes.gradients is
not under src/).  The external JSON decoder parses a JSON string and
delegates to from_dict; JSON decoding applies to strings only, so any
non-string input fails with a ValueError, and string parsing itself is not
modelled and fails.  The border_color setter only ever observes this failure
and falls back to from_dict or plain string validation. -/
def Gradient.from_json (_ : RawDoc) : Except HCError ColorVal :=
  .error .valueError

/-- Modelled from the spec: Gradient.from_dict decodes an external-form dict
into a Gradient variant (spec section 4.2: dispatch to the matching variant
decoder). -/
def Gradient.from_dict (d : List (String × RawDoc)) : Except HCError ColorVal :=
  match rawEntriesToJVal d with
  | some payload => .ok (.grad payload)
  | Option.none => .error .validationError

/-- Modelled from the spec: Gradient(**value) decodes an internal-form dict
into a Gradient variant. -/
def Gradient.fromKwargsDict (d : List (String × RawDoc)) : Except HCError ColorVal :=
  match rawEntriesToJVal d with
  | some payload => .ok (.grad payload)
  | Option.none => .error .validationError

/-- Modelled from the spec: Pattern.from_json, as Gradient.from_json. -/
def Pattern.from_json (_ : RawDoc) : Except HCError ColorVal :=
  .error .valueError

/-- Modelled from the spec: Pattern.from_dict decodes an external-form dict
into a Pattern variant. -/
def Pattern.from_dict (d : List (String × RawDoc)) : Except HCError ColorVal :=
  match rawEntriesToJVal d with
  | some payload => .ok (.pat payload)
  | Option.none => .error .validationError

/-- Modelled from the spec: Pattern(**value) decodes an internal-form dict
into a Pattern variant. -/
def Pattern.fromKwargsDict (d : List (String × RawDoc)) : Except HCError ColorVal :=
  match rawEntriesToJVal d with
  | some payload => .ok (.pat payload)
  | Option.none => .error .validationError

/-- Setter of BarData.border_color (series/data/bar.py lines 42 to 71),
branch for branch: a falsy value clears the field; a Gradient or Pattern
instance is kept; a dict or string containing linearGradient tries
Gradient.from_json, and on ValueError falls back to Gradient.from_dict for a
dict or plain string validation for a string; a dict containing
linear_gradient goes through Gradient(**value); the two pattern branches
mirror this; every remaining value raises the unresolved-union error. -/
def BarData.set_border_color (value : RawDoc) : Except HCError (Option ColorVal) :=
  if falsyRaw value then .ok Option.none
  else
    match value with
    | .gradientInst p => .ok (some (.grad p))
    | .patternInst p => .ok (some (.pat p))
    | .dict d =>
      if dictHasKey d "linearGradient" then
        match Gradient.from_json (.dict d) with
        | .ok c => .ok (some c)
        | .error _ =>
          match Gradient.from_dict d with
          | .ok c => .ok (some c)
          | .error e => .error e
      else if dictHasKey d "linear_gradient" then
        match Gradient.fromKwargsDict d with
        | .ok c => .ok (some c)
        | .error e => .error e
      else if dictHasKey d "patternOptions" then
        match Pattern.from_json (.dict d) with
        | .ok c => .ok (some c)
        | .error _ =>
          match Pattern.from_dict d with
          | .ok c => .ok (some c)
          | .error e => .error e
      else if dictHasKey d "pattern_options" then
        match Pattern.fromKwargsDict d with
        | .ok c => .ok (some c)
        | .error e => .error e
      else .error .unresolvedUnionType
    | .str s =>
      if strContains s "linearGradient" then
        match Gradient.from_json (.str s) with
        | .ok c => .ok (some c)
        | .error _ =>
          match validateString false (.str s) with
          | .ok (some t) => .ok (some (.plain t))
          | _ => .error .validationError
      else if strContains s "patternOptions" then
        match Pattern.from_json (.str s) with
        | .ok c => .ok (some c)
        | .error _ =>
          match validateString false (.str s) with
          | .ok (some t) => .ok (some (.plain t))
          | _ => .error .validationError
      else .error .unresolvedUnionType
    | _ => .error .unresolvedUnionType

/-- The supported dash style names, as listed in the dash_style docstring in
src (the constants module itself is not under src/). -/
def SUPPORTED_DASH_STYLE_VALUES : List String :=
  ["Dash", "DashDot", "Dot", "LongDash", "LongDashDot", "LongDashDotDot",
   "ShortDash", "ShortDashDot", "ShortDashDotDot", "ShortDot", "Solid"]

/-- Setter of BarData.dash_style: a falsy value clears the field; otherwise
the value must be a string and a member of the supported dash styles. -/
def BarData.set_dash_style (value : RawDoc) : Except HCError (Option String) :=
  if falsyRaw value then .ok Option.none
  else
    match validateString false value with
    | .error e => .error e
    | .ok Option.none => .error .validationError
    | .ok (some s) =>
      if SUPPORTED_DASH_STYLE_VALUES.contains s then .ok (some s)
      else .error .valueError

/-- BarData._get_kwargs_from_dict (series/data/bar.py lines 146 to 184). -/
def BarData.getKwargsFromDict (d : List (String × RawDoc)) :
    List (String × RawDoc) :=
  [("accessibility", dictPop d "accessibility" .none),
   ("class_name", dictPop d "className" .none),
   ("color", dictPop d "color" .none),
   ("color_index", dictPop d "colorIndex" .none),
   ("custom", dictPop d "custom" .none),
   ("description", dictPop d "description" .none),
   ("events", dictPop d "events" .none),
   ("id", dictPop d "id" .none),
   ("label_rank", dictPop d "labelrank" .none),
   ("name", dictPop d "name" .none),
   ("selected", dictPop d "selected" .none),
   ("data_labels", dictPop d "dataLabels" .none),
   ("drag_drop", dictPop d "dragDrop" .none),
   ("drilldown", dictPop d "drilldown" .none),
   ("marker", dictPop d "marker" .none),
   ("x", dictPop d "x" .none),
   ("y", dictPop d "y" .none),
   ("border_color", dictPop d "borderColor" .none),
   ("border_width", dictPop d "borderWidth" .none),
   ("dash_style", dictPop d "dashStyle" .none),
   ("point_width", dictPop d "pointWidth" .none)]

/-- BarData.__init__ applied to a keyword dict: sets border_color,
border_width, dash_style and point_width in source order, then delegates x
and y to the CartesianData constructor. -/
def BarData.fromKwargsList (kw : List (String × RawDoc)) : Except HCError BarData :=
  match BarData.set_border_color (dictPop kw "border_color" .none) with
  | .error e => .error e
  | .ok bc =>
  match validateNumericMin true 0 (dictPop kw "border_width" .none) with
  | .error e => .error e
  | .ok bw =>
  match BarData.set_dash_style (dictPop kw "dash_style" .none) with
  | .error e => .error e
  | .ok ds =>
  match validateNumeric true (dictPop kw "point_width" .none) with
  | .error e => .error e
  | .ok pw =>
  match setXVal (dictPop kw "x" .none) with
  | .error e => .error e
  | .ok xv =>
  match validateNumeric true (dictPop kw "y" .none) with
  | .error e => .error e
  | .ok yv => .ok ⟨bc, bw, ds, pw, xv, yv⟩

/-- BarData.from_dict: keyword extraction followed by construction. -/
def BarData.from_dict (d : List (String × RawDoc)) : Except HCError BarData :=
  BarData.fromKwargsList (BarData.getKwargsFromDict d)

/-- Serialization of an optional border-color value. -/
def serColorOpt : Option ColorVal → JVal
  | Option.none => .null
  | some (.plain s) => .str s
  | some (.grad payload) => .obj payload
  | some (.pat payload) => .obj payload

/-- The four own keys of the BarData.to_dict untrimmed dict. -/
def BarData.ownUntrimmed (b : BarData) : List (String × JVal) :=
  [("borderColor", serColorOpt b.border_color),
   ("borderWidth", serNumOpt b.border_width),
   ("dashStyle", serStrOpt b.dash_style),
   ("pointWidth", serNumOpt b.point_width)]

/-- Modelled from the spec: the untrimmed dict of CartesianData.to_dict
(series/data/cartesian.py is not under src/); it carries the positional keys
x and y (see WindBarbData). -/
def CartesianData.toUntrimmed (x : Option XVal) (y : Option Int) :
    List (String × JVal) :=
  [("x", serXValOpt x), ("y", serNumOpt y)]

/-- The untrimmed dict of BarData.to_dict: the own keys, with every key of
the parent dict written over them. -/
def BarData.toUntrimmed (b : BarData) : List (String × JVal) :=
  mergeParent (BarData.ownUntrimmed b) (CartesianData.toUntrimmed b.x b.y)

/-- BarData.to_dict: the merged untrimmed dict passed through trim_dict. -/
def BarData.to_dict (b : BarData) : List (String × JVal) :=
  trim_dict (BarData.toUntrimmed b)

/-- The designated empty bar point for a null slot (all fields None). -/
def BarData.empty : BarData :=
  ⟨Option.none, Option.none, Option.none, Option.none, Option.none, Option.none⟩

/-- Modelled from the spec: one element of the from_setter loop that BarData
inherits from CartesianData (series/data/cartesian.py is not under src/).
Per spec section 4.5 and the data docstrings in series/bar.py: an instance is
kept, a dict decodes via from_dict, a null marker yields the designated empty
point, a length-2 sequence destructures as (x, y), a bare scalar is the sole
y value, and anything else fails. -/
def coerceBarItem (item : RawDoc) : Except HCError BarData :=
  match item with
  | .barInst b => .ok b
  | .dict d => BarData.from_dict d
  | .none => .ok BarData.empty
  | .enforcedNull => .ok BarData.empty
  | .seq l =>
    match l with
    | [a, b] => BarData.from_dict [("x", a), ("y", b)]
    | _ => .error (.unsupportedDimensionality l.length)
  | .num n => BarData.from_dict [("y", .num n)]
  | .boolean b => BarData.from_dict [("y", .boolean b)]
  | .str s => BarData.from_dict [("y", .str s)]
  | _ => .error .uncoercibleElement

/-- Modelled from the spec: BarData.from_setter, inherited from
CartesianData; same empty, wrapping and loop shape as the two from_setter
methods in src. -/
def BarData.from_setter (value : RawDoc) : Except HCError (List BarData) :=
  if falsyRaw value then .ok []
  else exceptMapM coerceBarItem (rawItems value)

/-- Setter of BaseBarSeries.data (series/bar.py lines 87 to 92): a falsy
value stores None, anything else stores the coerced collection. -/
def BaseBarSeries.setData (value : RawDoc) :
    Except HCError (Option (List BarData)) :=
  if falsyRaw value then .ok Option.none
  else
    match BarData.from_setter value with
    | .error e => .error e
    | .ok l => .ok (some l)

/-- Modelled from the spec: WeightedConnectionData.from_dict
(series/data/connections.py is not under src/): pops the from, to and weight
keys and validates them. -/
def WeightedConnectionData.from_dict (d : List (String × RawDoc)) :
    Except HCError WeightedConnectionData :=
  match validateString true (dictPop d "from" .none) with
  | .error e => .error e
  | .ok fr =>
  match validateString true (dictPop d "to" .none) with
  | .error e => .error e
  | .ok t =>
  match validateNumeric true (dictPop d "weight" .none) with
  | .error e => .error e
  | .ok w => .ok ⟨fr, t, w⟩

/-- The designated empty connection point for a null slot. -/
def WeightedConnectionData.empty : WeightedConnectionData :=
  ⟨Option.none, Option.none, Option.none⟩

/-- Modelled from the spec: one element of WeightedConnectionData.from_setter
per spec section 4.5 and the data docstring of DependencyWheelSeries (in
src): an instance is kept, a dict decodes via from_dict, a null marker yields
the designated empty point, anything else fails. -/
def coerceConnectionItem (item : RawDoc) : Except HCError WeightedConnectionData :=
  match item with
  | .connectionInst c => .ok c
  | .dict d => WeightedConnectionData.from_dict d
  | .none => .ok WeightedConnectionData.empty
  | .enforcedNull => .ok WeightedConnectionData.empty
  | _ => .error .uncoercibleElement

/-- Modelled from the spec: WeightedConnectionData.from_setter, same shape as
the from_setter methods in src. -/
def WeightedConnectionData.from_setter (value : RawDoc) :
    Except HCError (List WeightedConnectionData) :=
  if falsyRaw value then .ok []
  else exceptMapM coerceConnectionItem (rawItems value)

/-- Setter of DependencyWheelSeries.data (series/dependencywheel.py lines 51
to 56): a falsy value stores None, anything else stores the coerced
collection. -/
def DependencyWheelSeries.setData (value : RawDoc) :
    Except HCError (Option (List WeightedConnectionData)) :=
  if falsyRaw value then .ok Option.none
  else
    match WeightedConnectionData.from_setter value with
    | .error e => .error e
    | .ok l => .ok (some l)

/-- Setter of XRangeSeries.data (series/bar.py lines 1116 to 1121): a falsy
value stores None, anything else stores the coerced collection (whose slots
may hold the None placeholder, see coerceXRangeItem). -/
def XRangeSeries.setData (value : RawDoc) :
    Except HCError (Option (List (Option XRangeData))) :=
  if falsyRaw value then .ok Option.none
  else
    match XRangeData.from_setter value with
    | .error e => .error e
    | .ok l => .ok (some l)

/-- Modelled from the spec: mro_to_dict (utility_functions.py is not under
src/) merges the untrimmed to_dict output of every class of the MRO into one
dict, later parts written over earlier ones with the fixed precedence of spec
section 4.4. -/
def mro_to_dict (parts : List (List (String × JVal))) : List (String × JVal) :=
  parts.foldl mergeParent []

/-- Modelled from the spec: a representative slice of the untrimmed
SeriesBase.to_dict output (series/base.py is not under src/); the name and
dashStyle keys stand for the generic series options. -/
def SeriesBase.toUntrimmed (name dash_style : Option String) :
    List (String × JVal) :=
  [("name", serStrOpt name), ("dashStyle", serStrOpt dash_style)]

/-- Modelled from the spec: a representative slice of the untrimmed
BaseBarOptions.to_dict output (plot_options/bar.py is not under src/); the
borderColor and borderWidth keys stand for the bar appearance options. -/
def BaseBarOptions.toUntrimmed (border_color : Option String)
    (border_width : Option Int) : List (String × JVal) :=
  [("borderColor", serStrOpt border_color), ("borderWidth", serNumOpt border_width)]

/-- The untrimmed dict of BaseBarSeries.to_dict (series/bar.py lines 190 to
193): mro_to_dict over the parent dicts, SeriesBase before BaseBarOptions. -/
def BaseBarSeries.toUntrimmed (name dash_style : Option String)
    (border_color : Option String) (border_width : Option Int) :
    List (String × JVal) :=
  mro_to_dict
    [SeriesBase.toUntrimmed name dash_style,
     BaseBarOptions.toUntrimmed border_color border_width]

/-- BaseBarSeries.to_dict: the merged untrimmed dict passed through
trim_dict. -/
def BaseBarSeries.to_dict (name dash_style : Option String)
    (border_color : Option String) (border_width : Option Int) :
    List (String × JVal) :=
  trim_dict (BaseBarSeries.toUntrimmed name dash_style border_color border_width)

/-- BarSeries._get_kwargs_from_dict (series/bar.py lines 213 to 311), with
every declared pop and its default.  The groupPadding and pointPadding
defaults (the decimal floats 0.2 and 0.1) are outside the modelled value
universe and are carried as None here; no claim touches them. -/
def BarSeries.getKwargsFromDict (d : List (String × RawDoc)) :
    List (String × RawDoc) :=
  [("accessibility", dictPop d "accessibility" .none),
   ("allow_point_select", dictPop d "allowPointSelect" .none),
   ("animation", dictPop d "animation" .none),
   ("class_name", dictPop d "className" .none),
   ("clip", dictPop d "clip" .none),
   ("color", dictPop d "color" .none),
   ("cursor", dictPop d "cursor" .none),
   ("custom", dictPop d "custom" .none),
   ("dash_style", dictPop d "dashStyle" .none),
   ("data_labels", dictPop d "dataLabels" .none),
   ("description", dictPop d "description" .none),
   ("enable_mouse_tracking", dictPop d "enableMouseTracking" .none),
   ("events", dictPop d "events" .none),
   ("include_in_data_export", dictPop d "includeInDataExport" .none),
   ("keys", dictPop d "keys" .none),
   ("label", dictPop d "label" .none),
   ("linked_to", dictPop d "linkedTo" .none),
   ("marker", dictPop d "marker" .none),
   ("on_point", dictPop d "onPoint" .none),
   ("opacity", dictPop d "opacity" .none),
   ("point", dictPop d "point" .none),
   ("point_description_formatter", dictPop d "pointDescriptionFormatter" .none),
   ("selected", dictPop d "selected" .none),
   ("show_checkbox", dictPop d "showCheckbox" .none),
   ("show_in_legend", dictPop d "showInLegend" .none),
   ("skip_keyboard_navigation", dictPop d "skipKeyboardNavigation" .none),
   ("states", dictPop d "states" .none),
   ("threshold", dictPop d "threshold" .none),
   ("tooltip", dictPop d "tooltip" .none),
   ("turbo_threshold", dictPop d "turboThreshold" .none),
   ("visible", dictPop d "visible" .none),
   ("animation_limit", dictPop d "animationLimit" .none),
   ("boost_blending", dictPop d "boostBlending" .none),
   ("boost_threshold", dictPop d "boostThreshold" .none),
   ("color_axis", dictPop d "colorAxis" .none),
   ("color_index", dictPop d "colorIndex" .none),
   ("color_key", dictPop d "colorKey" .none),
   ("connect_ends", dictPop d "connectEnds" .none),
   ("connect_nulls", dictPop d "connectNulls" .none),
   ("crisp", dictPop d "crisp" .none),
   ("crop_threshold", dictPop d "cropThreshold" .none),
   ("data_sorting", dictPop d "dataSorting" .none),
   ("drag_drop", dictPop d "dragDrop" .none),
   ("fill_color", dictPop d "fillColor" .none),
   ("fill_opacity", dictPop d "fillOpacity" .none),
   ("find_nearest_point_by", dictPop d "findNearestPointBy" .none),
   ("get_extremes_for_all", dictPop d "getExtremesForAll" .none),
   ("linecap", dictPop d "linecap" .none),
   ("line_color", dictPop d "lineColor" .none),
   ("line_width", dictPop d "lineWidth" .none),
   ("negative_color", dictPop d "negativeColor" .none),
   ("negative_fill_color", dictPop d "negativeFillColor" .none),
   ("point_interval", dictPop d "pointInterval" .none),
   ("point_interval_unit", dictPop d "pointIntervalUnit" .none),
   ("point_placement", dictPop d "pointPlacement" .none),
   ("point_start", dictPop d "pointStart" .none),
   ("relative_x_value", dictPop d "relativeXValue" .none),
   ("shadow", dictPop d "shadow" .none),
   ("soft_threshold", dictPop d "softThreshold" .none),
   ("stacking", dictPop d "stacking" .none),
   ("step", dictPop d "step" .none),
   ("track_by_area", dictPop d "trackByArea" .none),
   ("zone_axis", dictPop d "zoneAxis" .none),
   ("zones", dictPop d "zones" .none),
   ("border_color", dictPop d "borderColor" (.str "#ffffff")),
   ("border_radius", dictPop d "borderRadius" (.num 0)),
   ("border_width", dictPop d "borderWidth" .none),
   ("center_in_category", dictPop d "centerInCategory" (.boolean false)),
   ("color_by_point", dictPop d "colorByPoint" (.boolean false)),
   ("colors", dictPop d "colors" .none),
   ("grouping", dictPop d "grouping" (.boolean true)),
   ("group_padding", dictPop d "groupPadding" .none),
   ("max_point_width", dictPop d "maxPointWidth" .none),
   ("min_point_length", dictPop d "minPointLength" (.num 0)),
   ("point_padding", dictPop d "pointPadding" .none),
   ("point_range", dictPop d "pointRange" .enforcedNull),
   ("point_width", dictPop d "pointWidth" .none),
   ("depth", dictPop d "depth" (.num 25)),
   ("edge_color", dictPop d "edgeColor" .none),
   ("edge_width", dictPop d "edgeWidth" (.num 1)),
   ("group_z_padding", dictPop d "groupZPadding" (.num 1)),
   ("data", dictPop d "data" .none),
   ("id", dictPop d "id" .none),
   ("index", dictPop d "index" .none),
   ("legend_index", dictPop d "legendIndex" .none),
   ("name", dictPop d "name" .none),
   ("stack", dictPop d "stack" .none),
   ("x_axis", dictPop d "xAxis" .none),
   ("y_axis", dictPop d "yAxis" .none),
   ("z_index", dictPop d "zIndex" .none)]

theorem dictGet_eq_none_of_not_mem {α : Type} (l : List (String × α)) (k : String)
    (h : ∀ kv ∈ l, kv.1 ≠ k) : dictGet l k = Option.none := by
  induction l with
  | nil => rfl
  | cons kv rest ih =>
    obtain ⟨k0, v⟩ := kv
    have h0 : k0 ≠ k := h (k0, v) (List.mem_cons_self _ _)
    simp only [dictGet, if_neg h0]
    exact ih (fun kv hkv => h kv (List.mem_cons_of_mem _ hkv))

theorem dictGet_trim (l : List (String × JVal)) (h : (l.map Prod.fst).Nodup)
    (k : String) :
    dictGet (trim_dict l) k =
      (dictGet l k).bind (fun v => if v.isNull then Option.none else some v) := by
  induction l with
  | nil => rfl
  | cons kv rest ih =>
    obtain ⟨k0, v⟩ := kv
    simp only [List.map_cons, List.nodup_cons] at h
    have hrest := ih h.2
    have hfilter : trim_dict ((k0, v) :: rest) =
        if v.isNull then trim_dict rest else (k0, v) :: trim_dict rest := by
      simp only [trim_dict, List.filter_cons]
      cases hv : v.isNull <;> simp
    by_cases hk : k0 = k
    · subst hk
      have hnone : dictGet rest k0 = Option.none := by
        refine dictGet_eq_none_of_not_mem rest k0 (fun kv hkv hek => ?_)
        exact h.1 (List.mem_map.2 ⟨kv, hkv, hek⟩)
      have hget : dictGet ((k0, v) :: rest) k0 = some v := by
        simp [dictGet]
      rw [hget, hfilter]
      by_cases hv : v.isNull = true
      · rw [if_pos hv, hrest, hnone]
        simp [hv]
      · rw [if_neg hv]
        simp [dictGet, hv]
    · have hget : dictGet ((k0, v) :: rest) k = dictGet rest k := by
        simp [dictGet, hk]
      rw [hget, hfilter]
      by_cases hv : v.isNull = true
      · rw [if_pos hv]
        exact hrest
      · rw [if_neg hv]
        have hstep : dictGet ((k0, v) :: trim_dict rest) k = dictGet (trim_dict rest) k := by
          simp [dictGet, hk]
        rw [hstep]
        exact hrest

theorem dictGet_toRawEntries (l : List (String × JVal)) (k : String) :
    dictGet (toRawEntries l) k = (dictGet l k).map jvalToRaw := by
  induction l with
  | nil => rfl
  | cons kv rest ih =>
    obtain ⟨k0, v⟩ := kv
    by_cases hk : k0 = k
    · simp [toRawEntries, dictGet, hk]
    · simp only [toRawEntries, List.map_cons, dictGet, if_neg hk]
      exact ih

theorem dictGet_dictSet (d : List (String × JVal)) (k0 : String) (v : JVal)
    (k : String) :
    dictGet (dictSet d k0 v) k = if k0 = k then some v else dictGet d k := by
  induction d with
  | nil => simp [dictSet, dictGet]
  | cons kv rest ih =>
    obtain ⟨k1, v1⟩ := kv
    by_cases h1 : k1 = k0
    · subst h1
      rw [dictSet, if_pos rfl]
      by_cases hk : k1 = k
      · subst hk
        simp [dictGet]
      · simp [dictGet, hk]
    · rw [dictSet, if_neg h1]
      by_cases hk : k1 = k
      · subst hk
        have h2 : ¬k0 = k1 := fun he => h1 he.symm
        simp [dictGet, h2]
      · rw [dictGet, if_neg hk, dictGet, if_neg hk]
        exact ih

theorem mergeParent_get (c p : List (String × JVal))
    (hp : (p.map Prod.fst).Nodup) (k : String) :
    dictGet (mergeParent c p) k =
      (dictGet p k).orElse (fun _ => dictGet c k) := by
  induction p generalizing c with
  | nil => simp [mergeParent, dictGet, Option.orElse]
  | cons kv rest ih =>
    obtain ⟨k0, v⟩ := kv
    simp only [List.map_cons, List.nodup_cons] at hp
    have step : mergeParent c ((k0, v) :: rest) = mergeParent (dictSet c k0 v) rest := rfl
    rw [step, ih _ hp.2]
    by_cases hk : k0 = k
    · subst hk
      have hnone : dictGet rest k0 = Option.none := by
        refine dictGet_eq_none_of_not_mem rest k0 (fun kv hkv hek => ?_)
        exact hp.1 (List.mem_map.2 ⟨kv, hkv, hek⟩)
      rw [hnone]
      simp [dictGet, dictGet_dictSet, Option.orElse]
    · rw [dictGet, if_neg hk, dictGet_dictSet, if_neg hk]

theorem mem_keys_dictSet (d : List (String × JVal)) (k0 : String) (v : JVal)
    (k : String) (h : k ∈ (dictSet d k0 v).map Prod.fst) :
    k ∈ d.map Prod.fst ∨ k = k0 := by
  induction d with
  | nil =>
    rw [dictSet] at h
    simp at h
    exact Or.inr h
  | cons kv rest ih =>
    obtain ⟨k1, v1⟩ := kv
    by_cases h1 : k1 = k0
    · rw [dictSet, if_pos h1] at h
      simp only [List.map_cons, List.mem_cons] at h
      rcases h with h | h
      · exact Or.inl (by simp [h])
      · exact Or.inl (by simp [List.mem_cons, h])
    · rw [dictSet, if_neg h1] at h
      simp only [List.map_cons, List.mem_cons] at h
      rcases h with h | h
      · exact Or.inl (by simp [h])
      · rcases ih h with h2 | h2
        · exact Or.inl (by simp [List.mem_cons, h2])
        · exact Or.inr h2

theorem keys_nodup_dictSet (d : List (String × JVal)) (k0 : String) (v : JVal)
    (h : (d.map Prod.fst).Nodup) : ((dictSet d k0 v).map Prod.fst).Nodup := by
  induction d with
  | nil => rw [dictSet]; simp
  | cons kv rest ih =>
    obtain ⟨k1, v1⟩ := kv
    simp only [List.map_cons, List.nodup_cons] at h
    by_cases h1 : k1 = k0
    · rw [dictSet, if_pos h1]
      simp only [List.map_cons, List.nodup_cons]
      exact h
    · rw [dictSet, if_neg h1]
      simp only [List.map_cons, List.nodup_cons]
      refine ⟨?_, ih h.2⟩
      intro hmem
      rcases mem_keys_dictSet rest k0 v k1 hmem with h2 | h2
      · exact h.1 h2
      · exact h1 h2

theorem mergeParent_keys_nodup (c p : List (String × JVal))
    (hc : (c.map Prod.fst).Nodup) :
    ((mergeParent c p).map Prod.fst).Nodup := by
  induction p generalizing c with
  | nil => exact hc
  | cons kv rest ih =>
    obtain ⟨k0, v⟩ := kv
    have step : mergeParent c ((k0, v) :: rest) = mergeParent (dictSet c k0 v) rest := rfl
    rw [step]
    exact ih _ (keys_nodup_dictSet c k0 v hc)

theorem exceptMapM_ok_length {α β : Type} (f : α → Except HCError β)
    (l : List α) (res : List β) (h : exceptMapM f l = .ok res) :
    res.length = l.length := by
  induction l generalizing res with
  | nil =>
    simp only [exceptMapM] at h
    cases h
    rfl
  | cons a rest ih =>
    simp only [exceptMapM] at h
    cases hf : f a with
    | error e => rw [hf] at h; cases h
    | ok b =>
      rw [hf] at h
      cases hrest : exceptMapM f rest with
      | error e => rw [hrest] at h; cases h
      | ok bs =>
        rw [hrest] at h
        cases h
        simp [ih bs hrest]

theorem exceptMapM_ok_get {α β : Type} (f : α → Except HCError β)
    (l : List α) (res : List β) (h : exceptMapM f l = .ok res)
    (i : Nat) (hi : i < l.length) (hi2 : i < res.length) :
    f (l.get ⟨i, hi⟩) = .ok (res.get ⟨i, hi2⟩) := by
  induction l generalizing res i with
  | nil => exact absurd hi (by simp)
  | cons a rest ih =>
    simp only [exceptMapM] at h
    cases hf : f a with
    | error e => rw [hf] at h; cases h
    | ok b =>
      rw [hf] at h
      cases hrest : exceptMapM f rest with
      | error e => rw [hrest] at h; cases h
      | ok bs =>
        rw [hrest] at h
        cases h
        cases i with
        | zero => simpa using hf
        | succ j =>
          simp only [List.get_cons_succ]
          exact ih bs hrest j (by simpa using hi) (by simpa using hi2)

theorem validateNumeric_reset (v : Option Int) :
    validateNumeric true (jvalToRaw (serNumOpt v)) = .ok v := by
  cases v <;> rfl

theorem setAxisRef_ok_id (r : RawDoc) (s : String)
    (h : setAxisRef r = .ok (some (.id s))) :
    s ≠ "" ∧ strToIntOpt s = Option.none := by
  cases r with
  | str s0 =>
    rw [setAxisRef] at h
    by_cases h0 : s0 = ""
    · rw [if_pos h0] at h
      cases h
    · rw [if_neg h0] at h
      cases hint : strToIntOpt s0 with
      | some n => rw [hint] at h; cases h
      | none =>
        rw [hint] at h
        cases h
        exact ⟨h0, hint⟩
  | none => cases h
  | num n => cases h
  | boolean b => cases h
  | enforcedNull => cases h
  | dict d => cases h
  | seq l => cases h
  | gradientInst p => cases h
  | patternInst p => cases h
  | barInst b => cases h
  | windBarbInst w => cases h
  | xRangeInst p => cases h
  | connectionInst c => cases h

theorem setAxisRef_reset (r : RawDoc) (a : Option AxisRef)
    (h : setAxisRef r = .ok a) :
    setAxisRef (jvalToRaw (serAxisOpt a)) = .ok a := by
  match a with
  | Option.none => rfl
  | some (.idx n) => rfl
  | some (.id s) =>
    obtain ⟨hne, hint⟩ := setAxisRef_ok_id r s h
    show setAxisRef (.str s) = .ok (some (.id s))
    rw [setAxisRef, if_neg hne, hint]

theorem validateString_true_some (r : RawDoc) (t : String)
    (h : validateString true r = .ok (some t)) : t ≠ "" := by
  rw [validateString.eq_def] at h
  split at h
  · simp at h
  · cases r <;> simp_all [falsyRaw, truthyRaw]

theorem validateString_true_str (u : String) (hu : u ≠ "") :
    validateString true (.str u) = .ok (some u) := by
  have hf : falsyRaw (.str u) = false := by
    simp [falsyRaw, truthyRaw, hu]
  rw [validateString, hf]
  simp

theorem setAfterChartFormat_str (u : String) :
    setAfterChartFormat (.str u) = .ok (some u) := by
  by_cases hu : u = ""
  · subst hu
    rfl
  · simp [setAfterChartFormat, RawDoc.isNone, validateString, falsyRaw,
      truthyRaw, hu]

theorem setBeforeChartFormat_str (u : String) :
    setBeforeChartFormat (.str u) = .ok (some u) := by
  by_cases hu : u = ""
  · subst hu
    rfl
  · simp [setBeforeChartFormat, RawDoc.isNone, validateString, falsyRaw,
      truthyRaw, hu]

/-- The value a camelCase key pops to when the serialized field value went
through trimming: an unset field falls back to the pop default, a set field
comes back as its string. -/
def popSer (t : Option String) (dflt : RawDoc) : RawDoc :=
  match t with
  | Option.none => dflt
  | some u => .str u

theorem popSer_spec (t : Option String) (dflt : RawDoc) :
    (((some (serStrOpt t)).bind
        (fun v => if v.isNull then Option.none else some v)).map jvalToRaw).getD dflt =
      popSer t dflt := by
  cases t <;> rfl

theorem validateString_true_popSer (t : Option String)
    (hne : ∀ u, t = some u → u ≠ "") :
    validateString true (popSer t .none) = .ok t := by
  cases t with
  | none => rfl
  | some u => exact validateString_true_str u (hne u rfl)

/-- Claim C2 (amended): deserializing the serialized form reconstructs an
equal entity for AnnotationPoint on every validly constructed point; for
ScreenReaderSection the same holds provided no field whose from_dict default
is a non-None constant (after_chart_format, axis_range_date_format,
before_chart_format) is in the explicit-None state, since to_json omits such
a field and from_dict then substitutes the constant. -/
theorem c2_round_trip :
    (∀ rx ra ry rb p, AnnotationPoint.fromKwargs rx ra ry rb = .ok p →
      AnnotationPoint.from_dict (toRawEntries (AnnotationPoint.to_dict p)) = .ok p) ∧
    (∀ r1 r2 r3 r4 r5 r6 r7 s,
      ScreenReaderSection.fromKwargs r1 r2 r3 r4 r5 r6 r7 = .ok s →
      s.after_chart_format ≠ Option.none →
      s.axis_range_date_format ≠ Option.none →
      s.before_chart_format ≠ Option.none →
      ScreenReaderSection.from_dict
        (toRawEntries (ScreenReaderSection.to_json s)) = .ok s) := by
  constructor
  · intro rx ra ry rb p h
    rw [AnnotationPoint.fromKwargs] at h
    cases h1 : validateNumeric true rx with
    | error e => rw [h1] at h; cases h
    | ok xv =>
    rw [h1] at h
    cases h2 : setAxisRef ra with
    | error e => rw [h2] at h; cases h
    | ok xa =>
    rw [h2] at h
    cases h3 : validateNumeric true ry with
    | error e => rw [h3] at h; cases h
    | ok yv =>
    rw [h3] at h
    cases h4 : setAxisRef rb with
    | error e => rw [h4] at h; cases h
    | ok ya =>
    rw [h4] at h
    cases h
    have hred : AnnotationPoint.from_dict
        (toRawEntries (AnnotationPoint.to_dict ⟨xv, xa, yv, ya⟩)) =
        AnnotationPoint.fromKwargs (jvalToRaw (serNumOpt xv))
          (jvalToRaw (serAxisOpt xa)) (jvalToRaw (serNumOpt yv))
          (jvalToRaw (serAxisOpt ya)) := rfl
    rw [hred, AnnotationPoint.fromKwargs, validateNumeric_reset,
      setAxisRef_reset ra xa h2, validateNumeric_reset,
      setAxisRef_reset rb ya h4]
  · intro r1 r2 r3 r4 r5 r6 r7 s h ha hc hd
    rw [ScreenReaderSection.fromKwargs] at h
    cases h1 : setAfterChartFormat r1 with
    | error e => rw [h1] at h; cases h
    | ok a1 =>
    rw [h1] at h
    cases h2 : validateString true r2 with
    | error e => rw [h2] at h; cases h
    | ok a2 =>
    rw [h2] at h
    cases h3 : validateString true r3 with
    | error e => rw [h3] at h; cases h
    | ok a3 =>
    rw [h3] at h
    cases h4 : setBeforeChartFormat r4 with
    | error e => rw [h4] at h; cases h
    | ok a4 =>
    rw [h4] at h
    cases h5 : validateString true r5 with
    | error e => rw [h5] at h; cases h
    | ok a5 =>
    rw [h5] at h
    cases h6 : validateString true r6 with
    | error e => rw [h6] at h; cases h
    | ok a6 =>
    rw [h6] at h
    cases h7 : validateString true r7 with
    | error e => rw [h7] at h; cases h
    | ok a7 =>
    rw [h7] at h
    cases h
    cases a1 with
    | none => exact absurd rfl ha
    | some t1 =>
    cases a3 with
    | none => exact absurd rfl hc
    | some t3 =>
    cases a4 with
    | none => exact absurd rfl hd
    | some t4 =>
    have hkeys : ((ScreenReaderSection.untrimmedJson
        ⟨some t1, a2, some t3, some t4, a5, a6, a7⟩).map Prod.fst).Nodup := by
      have he : (ScreenReaderSection.untrimmedJson
          ⟨some t1, a2, some t3, some t4, a5, a6, a7⟩).map Prod.fst =
          ["afterChartFormat", "afterChartFormatter", "axisRangeDateFormat",
           "beforeChartFormat", "beforeChartFormatter", "onPlayAsSoundClick",
           "onViewDataTableClick"] := rfl
      rw [he]
      decide
    have hpop : ∀ k dflt,
        dictPop (toRawEntries (ScreenReaderSection.to_json
          ⟨some t1, a2, some t3, some t4, a5, a6, a7⟩)) k dflt =
        (((dictGet (ScreenReaderSection.untrimmedJson
            ⟨some t1, a2, some t3, some t4, a5, a6, a7⟩) k).bind
          (fun v => if v.isNull then Option.none else some v)).map jvalToRaw).getD dflt := by
      intro k dflt
      rw [dictPop, dictGet_toRawEntries, ScreenReaderSection.to_json,
        dictGet_trim _ hkeys]
    have hp1 : dictPop (toRawEntries (ScreenReaderSection.to_json
        ⟨some t1, a2, some t3, some t4, a5, a6, a7⟩)) "afterChartFormat"
        (.str DEFAULT_AFTER_CHART_FORMAT) = .str t1 := by
      rw [hpop]
      exact popSer_spec (some t1) _
    have hp2 : dictPop (toRawEntries (ScreenReaderSection.to_json
        ⟨some t1, a2, some t3, some t4, a5, a6, a7⟩)) "afterChartFormatter"
        .none = popSer a2 .none := by
      rw [hpop]
      exact popSer_spec a2 _
    have hp3 : dictPop (toRawEntries (ScreenReaderSection.to_json
        ⟨some t1, a2, some t3, some t4, a5, a6, a7⟩)) "axisRangeDateFormat"
        (.str DEFAULT_AXIS_RANGE_DATE_FORMAT) = .str t3 := by
      rw [hpop]
      exact popSer_spec (some t3) _
    have hp4 : dictPop (toRawEntries (ScreenReaderSection.to_json
        ⟨some t1, a2, some t3, some t4, a5, a6, a7⟩)) "beforeChartFormat"
        (.str DEFAULT_BEFORE_CHART_FORMAT) = .str t4 := by
      rw [hpop]
      exact popSer_spec (some t4) _
    have hp5 : dictPop (toRawEntries (ScreenReaderSection.to_json
        ⟨some t1, a2, some t3, some t4, a5, a6, a7⟩)) "beforeChartFormatter"
        .none = popSer a5 .none := by
      rw [hpop]
      exact popSer_spec a5 _
    have hp6 : dictPop (toRawEntries (ScreenReaderSection.to_json
        ⟨some t1, a2, some t3, some t4, a5, a6, a7⟩)) "onPlayAsSoundClick"
        .none = popSer a6 .none := by
      rw [hpop]
      exact popSer_spec a6 _
    have hp7 : dictPop (toRawEntries (ScreenReaderSection.to_json
        ⟨some t1, a2, some t3, some t4, a5, a6, a7⟩)) "onViewDataTableClick"
        .none = popSer a7 .none := by
      rw [hpop]
      exact popSer_spec a7 _
    have ht3 : t3 ≠ "" := validateString_true_some r3 t3 h3
    rw [ScreenReaderSection.from_dict, hp1, hp2, hp3, hp4, hp5, hp6, hp7,
      ScreenReaderSection.fromKwargs, setAfterChartFormat_str,
      validateString_true_popSer a2
        (fun u hu => validateString_true_some r2 u (hu ▸ h2)),
      validateString_true_str t3 ht3, setBeforeChartFormat_str,
      validateString_true_popSer a5
        (fun u hu => validateString_true_some r5 u (hu ▸ h5)),
      validateString_true_popSer a6
        (fun u hu => validateString_true_some r6 u (hu ▸ h6)),
      validateString_true_popSer a7
        (fun u hu => validateString_true_some r7 u (hu ▸ h7))]

/-- Claim C2, counterexample to the claim as stated: a ScreenReaderSection
validly built with after_chart_format explicitly None does not round-trip
through to_json and from_dict: the key is omitted by trimming and from_dict
substitutes the DEFAULT_AFTER_CHART_FORMAT constant, so the reconstructed
entity differs from the original in that field. -/
theorem c2_round_trip_counterexample :
    ScreenReaderSection.fromKwargs .none .none .none .none .none .none .none =
      .ok ⟨Option.none, Option.none, Option.none, Option.none, Option.none,
           Option.none, Option.none⟩ ∧
    ScreenReaderSection.from_dict (toRawEntries (ScreenReaderSection.to_json
      ⟨Option.none, Option.none, Option.none, Option.none, Option.none,
       Option.none, Option.none⟩)) =
      .ok ⟨some DEFAULT_AFTER_CHART_FORMAT, Option.none,
           some DEFAULT_AXIS_RANGE_DATE_FORMAT, some DEFAULT_BEFORE_CHART_FORMAT,
           Option.none, Option.none, Option.none⟩ ∧
    (⟨some DEFAULT_AFTER_CHART_FORMAT, Option.none,
      some DEFAULT_AXIS_RANGE_DATE_FORMAT, some DEFAULT_BEFORE_CHART_FORMAT,
      Option.none, Option.none, Option.none⟩ : ScreenReaderSection) ≠
      ⟨Option.none, Option.none, Option.none, Option.none, Option.none,
       Option.none, Option.none⟩ := by
  refine ⟨rfl, rfl, ?_⟩
  intro h
  cases h

/-- Claim C2, witness: the amended round-trip theorem applied at a concrete
AnnotationPoint and a concrete ScreenReaderSection. -/
theorem c2_round_trip_witness :
    AnnotationPoint.from_dict (toRawEntries (AnnotationPoint.to_dict
      ⟨some 1, some (.id "ax"), Option.none, some (.idx 2)⟩)) =
      .ok ⟨some 1, some (.id "ax"), Option.none, some (.idx 2)⟩ ∧
    ScreenReaderSection.from_dict (toRawEntries (ScreenReaderSection.to_json
      ⟨some "a", some "f", some "%d", some "b", Option.none, Option.none,
       Option.none⟩)) =
      .ok ⟨some "a", some "f", some "%d", some "b", Option.none, Option.none,
           Option.none⟩ :=
  ⟨c2_round_trip.1 (.num 1) (.str "ax") .none (.num 2) _ rfl,
   c2_round_trip.2 (.str "a") (.str "f") (.str "%d") (.str "b") .none .none
     .none _ rfl (by simp) (by simp) (by simp)⟩

/-- Claim C1 (evaluation at the decisive inputs): a dict bearing the
linearGradient key resolves to a Gradient variant and a non-empty dict whose
shape matches no accepted variant raises the unresolved-union error, exactly
as claimed; but the plain color string resolves to nothing: the setter has no
plain-string fallback branch and raises the same unresolved-union error on
the string the claim (and the property docstring, which declares the str
return type) says is stored as a plain string. -/
theorem c1_border_color_union :
    BarData.set_border_color (.dict [("linearGradient", .dict [("x1", .num 0)])]) =
      .ok (some (.grad [("linearGradient", .obj [("x1", .num 0)])])) ∧
    BarData.set_border_color (.dict [("stops", .num 1)]) =
      .error .unresolvedUnionType ∧
    BarData.set_border_color (.str "#ffffff") = .error .unresolvedUnionType :=
  ⟨rfl, rfl, rfl⟩

/-- Claim C3 (amended): the trim law holds for ScreenReaderSection.to_json
(a key carries a value iff the untrimmed dict carries that non-null value),
but AnnotationPoint.to_dict does not trim: it exports all four keys whatever
the field states. -/
theorem c3_trim_law :
    (∀ (s : ScreenReaderSection) (k : String) (v : JVal),
      dictGet (ScreenReaderSection.to_json s) k = some v ↔
        dictGet (ScreenReaderSection.untrimmedJson s) k = some v ∧
          v.isNull = false) ∧
    (∀ p : AnnotationPoint,
      (AnnotationPoint.to_dict p).map Prod.fst = ["x", "xAxis", "y", "yAxis"]) := by
  constructor
  · intro s k v
    have hkeys : ((ScreenReaderSection.untrimmedJson s).map Prod.fst).Nodup := by
      have he : (ScreenReaderSection.untrimmedJson s).map Prod.fst =
          ["afterChartFormat", "afterChartFormatter", "axisRangeDateFormat",
           "beforeChartFormat", "beforeChartFormatter", "onPlayAsSoundClick",
           "onViewDataTableClick"] := rfl
      rw [he]
      decide
    rw [ScreenReaderSection.to_json, dictGet_trim _ hkeys]
    cases hget : dictGet (ScreenReaderSection.untrimmedJson s) k with
    | none => simp
    | some w =>
      show (some w).bind (fun v => if v.isNull then Option.none else some v) =
          some v ↔ some w = some v ∧ v.isNull = false
      rw [Option.some_bind]
      by_cases hw : w.isNull = true
      · rw [if_pos hw]
        constructor
        · intro he
          cases he
        · rintro ⟨he, hv2⟩
          injection he with he2
          subst he2
          rw [hw] at hv2
          cases hv2
      · rw [if_neg hw]
        constructor
        · intro he
          injection he with he2
          subst he2
          exact ⟨rfl, by simpa using hw⟩
        · rintro ⟨he, h2⟩
          exact he
  · intro p
    rfl

/-- Claim C3, counterexample to the claim as stated: the AnnotationPoint with
every field unset still exports the x key, bound to an explicit null, because
AnnotationPoint.to_dict never trims. -/
theorem c3_trim_law_counterexample :
    AnnotationPoint.fromKwargs .none .none .none .none =
      .ok ⟨Option.none, Option.none, Option.none, Option.none⟩ ∧
    dictGet (AnnotationPoint.to_dict
      ⟨Option.none, Option.none, Option.none, Option.none⟩) "x" =
      some JVal.null :=
  ⟨rfl, rfl⟩

/-- Claim C4 (amended): assigning None (or any falsy value) to
BarData.border_color stores the same unset state as never touching the field,
and the borderColor key is omitted from the export either way; an explicit
null in the output arises only from the EnforcedNull sentinel, which
trim_dict preserves (the pointRange default of the series kwargs). -/
theorem c4_sentinel :
    (∀ v, falsyRaw v = true → BarData.set_border_color v = .ok Option.none) ∧
    (∀ b : BarData, b.border_color = Option.none →
      dictGet (BarData.to_dict b) "borderColor" = Option.none) ∧
    trim_dict [("pointRange", JVal.enforcedNull)] =
      [("pointRange", JVal.enforcedNull)] := by
  refine ⟨?_, ?_, rfl⟩
  · intro v hv
    rw [BarData.set_border_color.eq_def, if_pos hv]
  · intro b hb
    have hkeys : ((BarData.toUntrimmed b).map Prod.fst).Nodup := by
      have he : (BarData.toUntrimmed b).map Prod.fst =
          ["borderColor", "borderWidth", "dashStyle", "pointWidth", "x", "y"] := rfl
      rw [he]
      decide
    rw [BarData.to_dict, dictGet_trim _ hkeys]
    have hget : dictGet (BarData.toUntrimmed b) "borderColor" =
        some (serColorOpt b.border_color) := rfl
    rw [hget, hb]
    rfl

/-- Claim C4, counterexample to the claim as stated: the BarData built with
border_color explicitly None equals the BarData built without touching
border_color, and its export contains no borderColor key at all (the whole
dict is empty), so the two cases the claim requires to differ are
observationally identical. -/
theorem c4_sentinel_counterexample :
    BarData.fromKwargsList [("border_color", RawDoc.none)] =
      BarData.fromKwargsList [] ∧
    (BarData.fromKwargsList []).map BarData.to_dict = .ok [] :=
  ⟨rfl, rfl⟩

/-- Claim C4, witness: the amended theorem applied at the None input and at a
concrete BarData whose border_color is unset. -/
theorem c4_sentinel_witness :
    BarData.set_border_color .none = .ok Option.none ∧
    dictGet (BarData.to_dict
      ⟨Option.none, some 2, Option.none, Option.none, Option.none, some 5⟩)
      "borderColor" = Option.none :=
  ⟨c4_sentinel.1 .none rfl, c4_sentinel.2.1 _ rfl⟩

/-- Claim C5 (amended): a length-4 sequence element is destructured as
(x, value, direction, y) and a length-3 element as (x, value, direction),
this mapping being fixed; any other length fails with the
unsupported-dimensionality error carrying that length; from_setter on a
singleton collection is exactly the element coercion; and the element
coercion succeeds exactly when the element is a WindBarbData instance, a null
marker, or a dict or legal-length sequence whose decoded field values pass
validation (so a dict or legal sequence with invalid values still raises,
which the original claim excluded). -/
theorem c5_dimensionality :
    (∀ a b c d, coerceWindBarbItem (.seq [a, b, c, d]) =
      WindBarbData.from_dict [("x", a), ("value", b), ("direction", c), ("y", d)]) ∧
    (∀ a b c, coerceWindBarbItem (.seq [a, b, c]) =
      WindBarbData.from_dict [("x", a), ("value", b), ("direction", c)]) ∧
    (∀ l : List RawDoc, l.length ≠ 3 → l.length ≠ 4 →
      coerceWindBarbItem (.seq l) = .error (.unsupportedDimensionality l.length)) ∧
    (∀ item, WindBarbData.from_setter (.seq [item]) =
      (coerceWindBarbItem item).map (fun p => [p])) ∧
    (∀ item, (∃ p, coerceWindBarbItem item = .ok p) ↔
      ((∃ w, item = .windBarbInst w) ∨ item = .none ∨ item = .enforcedNull ∨
       (∃ d, item = .dict d ∧ ∃ p, WindBarbData.from_dict d = .ok p) ∨
       (∃ a b c d, item = .seq [a, b, c, d] ∧ ∃ p, WindBarbData.from_dict
          [("x", a), ("value", b), ("direction", c), ("y", d)] = .ok p) ∨
       (∃ a b c, item = .seq [a, b, c] ∧ ∃ p, WindBarbData.from_dict
          [("x", a), ("value", b), ("direction", c)] = .ok p))) := by
  refine ⟨fun a b c d => rfl, fun a b c => rfl, ?_, ?_, ?_⟩
  · intro l h3 h4
    match l with
    | [] => rfl
    | [a] => rfl
    | [a, b] => rfl
    | [a, b, c] => exact absurd rfl h3
    | [a, b, c, d] => exact absurd rfl h4
    | a :: b :: c :: d :: e :: rest => rfl
  · intro item
    have hstep : WindBarbData.from_setter (.seq [item]) =
        exceptMapM coerceWindBarbItem [item] := rfl
    rw [hstep, exceptMapM]
    cases hc : coerceWindBarbItem item with
    | error e => rfl
    | ok p => rfl
  · intro item
    cases item with
    | windBarbInst w => simp [coerceWindBarbItem]
    | none =>
      constructor
      · intro _
        exact Or.inr (Or.inl rfl)
      · intro _
        exact ⟨WindBarbData.empty, rfl⟩
    | enforcedNull =>
      constructor
      · intro _
        exact Or.inr (Or.inr (Or.inl rfl))
      · intro _
        exact ⟨WindBarbData.empty, rfl⟩
    | dict d => simp [coerceWindBarbItem]
    | seq l =>
      match l with
      | [] => simp [coerceWindBarbItem]
      | [a] => simp [coerceWindBarbItem]
      | [a, b] => simp [coerceWindBarbItem]
      | [a, b, c] =>
        simp only [coerceWindBarbItem]
        simp
        constructor
        · intro hp
          exact ⟨a, b, c, ⟨rfl, rfl, rfl⟩, hp⟩
        · rintro ⟨a1, b1, c1, ⟨rfl, rfl, rfl⟩, hp⟩
          exact hp
      | [a, b, c, d] =>
        simp only [coerceWindBarbItem]
        simp
        constructor
        · intro hp
          exact ⟨a, b, c, d, ⟨rfl, rfl, rfl, rfl⟩, hp⟩
        · rintro ⟨a1, b1, c1, d1, ⟨rfl, rfl, rfl, rfl⟩, hp⟩
          exact hp
      | a :: b :: c :: d :: e :: rest => simp [coerceWindBarbItem]
    | num n => simp [coerceWindBarbItem]
    | str s => simp [coerceWindBarbItem]
    | boolean b => simp [coerceWindBarbItem]
    | gradientInst p => simp [coerceWindBarbItem]
    | patternInst p => simp [coerceWindBarbItem]
    | barInst b => simp [coerceWindBarbItem]
    | xRangeInst p => simp [coerceWindBarbItem]
    | connectionInst c => simp [coerceWindBarbItem]

/-- Claim C5, counterexample to the claim as stated: from_setter raises on an
element that is a dict (so not outside the four accepted kinds), because the
decoded value field fails numeric validation; the claim said from_setter
raises exactly when the element is none of the four kinds. -/
theorem c5_dimensionality_counterexample :
    WindBarbData.from_setter (.seq [.dict [("value", .str "abc")]]) =
      .error .validationError :=
  rfl

/-- Claim C5, witness: the amended theorem applied to a concrete length-4
element and a concrete length-1 element. -/
theorem c5_dimensionality_witness :
    coerceWindBarbItem (.seq [.num 7, .num 1, .num 2, .num 3]) =
      WindBarbData.from_dict
        [("x", .num 7), ("value", .num 1), ("direction", .num 2), ("y", .num 3)] ∧
    coerceWindBarbItem (.seq [.num 1]) = .error (.unsupportedDimensionality 1) :=
  ⟨c5_dimensionality.1 (.num 7) (.num 1) (.num 2) (.num 3),
   c5_dimensionality.2.2.1 [.num 1] (by decide) (by decide)⟩

/-- Claim C6 (amended): coercion preserves the length (hence order) of the
input collection and maps every null marker to a per-slot value rather than
skipping it; for WindBarbData that value is the designated empty point, but
for XRangeData it is the bare None placeholder, not an empty point
instance. -/
theorem c6_null_slots :
    (∀ items res, WindBarbData.from_setter (.seq items) = .ok res →
      res.length = items.length ∧
      ∀ i (h1 : i < items.length) (h2 : i < res.length),
        (items.get ⟨i, h1⟩ = .none ∨ items.get ⟨i, h1⟩ = .enforcedNull) →
        res.get ⟨i, h2⟩ = WindBarbData.empty) ∧
    (∀ items res, XRangeData.from_setter (.seq items) = .ok res →
      res.length = items.length ∧
      ∀ i (h1 : i < items.length) (h2 : i < res.length),
        (items.get ⟨i, h1⟩ = .none ∨ items.get ⟨i, h1⟩ = .enforcedNull) →
        res.get ⟨i, h2⟩ = Option.none) := by
  constructor
  · intro items res h
    rw [WindBarbData.from_setter] at h
    by_cases hemp : falsyRaw (.seq items) = true
    · rw [if_pos hemp] at h
      cases h
      have hnil : items = [] := by
        simpa [falsyRaw, truthyRaw, List.isEmpty_iff] using hemp
      subst hnil
      exact ⟨rfl, fun i h1 _ _ => absurd h1 (by simp)⟩
    · rw [if_neg hemp] at h
      have hr : rawItems (.seq items) = items := rfl
      rw [hr] at h
      refine ⟨exceptMapM_ok_length _ _ _ h, ?_⟩
      intro i h1 h2 hnull
      have hg := exceptMapM_ok_get _ _ _ h i h1 h2
      rcases hnull with hn | hn <;> rw [hn] at hg
      · have hg2 : Except.ok WindBarbData.empty =
            (Except.ok (res.get ⟨i, h2⟩) : Except HCError WindBarbData) := hg
        injection hg2 with hg3
        exact hg3.symm
      · have hg2 : Except.ok WindBarbData.empty =
            (Except.ok (res.get ⟨i, h2⟩) : Except HCError WindBarbData) := hg
        injection hg2 with hg3
        exact hg3.symm
  · intro items res h
    rw [XRangeData.from_setter] at h
    by_cases hemp : falsyRaw (.seq items) = true
    · rw [if_pos hemp] at h
      cases h
      have hnil : items = [] := by
        simpa [falsyRaw, truthyRaw, List.isEmpty_iff] using hemp
      subst hnil
      exact ⟨rfl, fun i h1 _ _ => absurd h1 (by simp)⟩
    · rw [if_neg hemp] at h
      have hr : rawItems (.seq items) = items := rfl
      rw [hr] at h
      refine ⟨exceptMapM_ok_length _ _ _ h, ?_⟩
      intro i h1 h2 hnull
      have hg := exceptMapM_ok_get _ _ _ h i h1 h2
      rcases hnull with hn | hn <;> rw [hn] at hg
      · have hg2 : Except.ok (Option.none : Option XRangeData) =
            .ok (res.get ⟨i, h2⟩) := hg
        injection hg2 with hg3
        exact hg3.symm
      · have hg2 : Except.ok (Option.none : Option XRangeData) =
            .ok (res.get ⟨i, h2⟩) := hg
        injection hg2 with hg3
        exact hg3.symm

/-- Claim C6, counterexample to the claim as stated: on a null slot
XRangeData.from_setter stores the bare None placeholder, not an empty point
instance with fields explicitly null (contrast WindBarbData, which does build
the empty point). -/
theorem c6_null_slots_counterexample :
    XRangeData.from_setter (.seq [.none]) = .ok [Option.none] ∧
    WindBarbData.from_setter (.seq [.none]) = .ok [WindBarbData.empty] :=
  ⟨rfl, rfl⟩

/-- Claim C6, witness: the amended theorem applied to singleton null
collections. -/
theorem c6_null_slots_witness :
    ([WindBarbData.empty].get ⟨0, by decide⟩ = WindBarbData.empty) ∧
    (([Option.none] : List (Option XRangeData)).get ⟨0, by decide⟩ = Option.none) :=
  ⟨(c6_null_slots.1 [.none] [WindBarbData.empty] rfl).2 0 (by decide) (by decide)
      (Or.inl rfl),
   (c6_null_slots.2 [.none] [Option.none] rfl).2 0 (by decide) (by decide)
      (Or.inl rfl)⟩

theorem isNone_eq_false (v : RawDoc) (h : v ≠ .none) : v.isNone = false := by
  cases v <;> simp_all [RawDoc.isNone]

theorem isNone_eq_false_of_truthy (v : RawDoc) (h : falsyRaw v = false) :
    v.isNone = false := by
  cases v <;> simp_all [RawDoc.isNone, falsyRaw, truthyRaw]

theorem validateString_false_ok (r : RawDoc) (t : Option String)
    (h : validateString false r = .ok t) : ∃ u, t = some u ∧ u ≠ "" := by
  rw [validateString.eq_def] at h
  split at h
  · simp at h
  · next hf =>
    cases r with
    | str s =>
      have h2 : (Except.ok (some s) : Except HCError (Option String)) = .ok t := h
      injection h2 with h3
      refine ⟨s, h3.symm, ?_⟩
      intro he
      subst he
      exact hf rfl
    | none =>
      cases (show (Except.error HCError.validationError :
        Except HCError (Option String)) = .ok t from h)
    | enforcedNull =>
      cases (show (Except.error HCError.validationError :
        Except HCError (Option String)) = .ok t from h)
    | boolean b =>
      cases (show (Except.error HCError.validationError :
        Except HCError (Option String)) = .ok t from h)
    | num n =>
      cases (show (Except.error HCError.validationError :
        Except HCError (Option String)) = .ok t from h)
    | dict d =>
      cases (show (Except.error HCError.validationError :
        Except HCError (Option String)) = .ok t from h)
    | seq l =>
      cases (show (Except.error HCError.validationError :
        Except HCError (Option String)) = .ok t from h)
    | gradientInst p =>
      cases (show (Except.error HCError.validationError :
        Except HCError (Option String)) = .ok t from h)
    | patternInst p =>
      cases (show (Except.error HCError.validationError :
        Except HCError (Option String)) = .ok t from h)
    | barInst b =>
      cases (show (Except.error HCError.validationError :
        Except HCError (Option String)) = .ok t from h)
    | windBarbInst w =>
      cases (show (Except.error HCError.validationError :
        Except HCError (Option String)) = .ok t from h)
    | xRangeInst p =>
      cases (show (Except.error HCError.validationError :
        Except HCError (Option String)) = .ok t from h)
    | connectionInst c =>
      cases (show (Except.error HCError.validationError :
        Except HCError (Option String)) = .ok t from h)

/-- Claim C10: for the after_chart_format and before_chart_format setters, a
None input stores None; any other falsy input stores the empty string; a
truthy input is stored only after non-empty string validation (so whatever is
stored from a truthy input is a non-empty string); the setters never raise on
falsy input; and the empty-string state differs from the None state. -/
theorem c10_format_setters :
    (setAfterChartFormat .none = .ok Option.none ∧
     setBeforeChartFormat .none = .ok Option.none) ∧
    (∀ v, falsyRaw v = true → v ≠ .none →
      setAfterChartFormat v = .ok (some "") ∧
      setBeforeChartFormat v = .ok (some "")) ∧
    (∀ v, falsyRaw v = false → ∀ t, setAfterChartFormat v = .ok t →
      ∃ u, t = some u ∧ u ≠ "") ∧
    (∀ v, falsyRaw v = false → ∀ t, setBeforeChartFormat v = .ok t →
      ∃ u, t = some u ∧ u ≠ "") ∧
    (some "" ≠ (Option.none : Option String)) := by
  refine ⟨⟨rfl, rfl⟩, ?_, ?_, ?_, by simp⟩
  · intro v hv hne
    rw [setAfterChartFormat, setBeforeChartFormat, isNone_eq_false v hne, hv]
    exact ⟨rfl, rfl⟩
  · intro v hv t h
    rw [setAfterChartFormat, isNone_eq_false_of_truthy v hv, hv] at h
    simp only [Bool.false_eq_true, if_false] at h
    cases hval : validateString false v with
    | error e => rw [hval] at h; cases h
    | ok s =>
      rw [hval] at h
      injection h with h2
      subst h2
      exact validateString_false_ok v _ hval
  · intro v hv t h
    rw [setBeforeChartFormat, isNone_eq_false_of_truthy v hv, hv] at h
    simp only [Bool.false_eq_true, if_false] at h
    cases hval : validateString false v with
    | error e => rw [hval] at h; cases h
    | ok s =>
      rw [hval] at h
      injection h with h2
      subst h2
      exact validateString_false_ok v _ hval

/-- Claim C10, witness: the setter theorem applied at None, at the empty
string, at the zero value, and at a concrete non-empty string. -/
theorem c10_format_setters_witness :
    setAfterChartFormat .none = .ok Option.none ∧
    setAfterChartFormat (.str "") = .ok (some "") ∧
    setBeforeChartFormat (.num 0) = .ok (some "") ∧
    (∃ u, (some "x" : Option String) = some u ∧ u ≠ "") :=
  ⟨c10_format_setters.1.1,
   (c10_format_setters.2.1 (.str "") rfl (by intro h; cases h)).1,
   (c10_format_setters.2.1 (.num 0) rfl (by intro h; cases h)).2,
   c10_format_setters.2.2.1 (.str "x") rfl (some "x") rfl⟩

/-- Claim C7: the export of a multi-parent entity merges every parent dict
into one dictionary with the deterministic parent-over-child precedence of
the merge loop, and the merged key list is duplicate-free, so no field
appears twice.  Proved for BarData.to_dict (own keys merged with the
CartesianData keys) and for the mro_to_dict merge of BaseBarSeries.to_dict
over its SeriesBase and BaseBarOptions parents. -/
theorem c7_merge_precedence :
    (∀ b : BarData,
      ((BarData.toUntrimmed b).map Prod.fst).Nodup ∧
      ∀ k, dictGet (BarData.toUntrimmed b) k =
        Option.orElse (dictGet (CartesianData.toUntrimmed b.x b.y) k)
          (fun _ => dictGet (BarData.ownUntrimmed b) k)) ∧
    (∀ name dash_style border_color border_width,
      ((BaseBarSeries.toUntrimmed name dash_style border_color
          border_width).map Prod.fst).Nodup ∧
      ∀ k, dictGet (BaseBarSeries.toUntrimmed name dash_style border_color
          border_width) k =
        Option.orElse
          (dictGet (BaseBarOptions.toUntrimmed border_color border_width) k)
          (fun _ => dictGet (SeriesBase.toUntrimmed name dash_style) k)) := by
  constructor
  · intro b
    have hown : ((BarData.ownUntrimmed b).map Prod.fst).Nodup := by
      have he : (BarData.ownUntrimmed b).map Prod.fst =
          ["borderColor", "borderWidth", "dashStyle", "pointWidth"] := rfl
      rw [he]
      decide
    have hpar : ((CartesianData.toUntrimmed b.x b.y).map Prod.fst).Nodup := by
      have he : (CartesianData.toUntrimmed b.x b.y).map Prod.fst =
          ["x", "y"] := rfl
      rw [he]
      decide
    exact ⟨mergeParent_keys_nodup _ _ hown,
      fun k => mergeParent_get _ _ hpar k⟩
  · intro name dash_style border_color border_width
    have hstep : BaseBarSeries.toUntrimmed name dash_style border_color
        border_width =
        mergeParent (SeriesBase.toUntrimmed name dash_style)
          (BaseBarOptions.toUntrimmed border_color border_width) := rfl
    have hsb : ((SeriesBase.toUntrimmed name dash_style).map Prod.fst).Nodup := by
      have he : (SeriesBase.toUntrimmed name dash_style).map Prod.fst =
          ["name", "dashStyle"] := rfl
      rw [he]
      decide
    have hbo : ((BaseBarOptions.toUntrimmed border_color border_width).map
        Prod.fst).Nodup := by
      have he : (BaseBarOptions.toUntrimmed border_color border_width).map
          Prod.fst = ["borderColor", "borderWidth"] := rfl
      rw [he]
      decide
    rw [hstep]
    exact ⟨mergeParent_keys_nodup _ _ hsb, fun k => mergeParent_get _ _ hbo k⟩

/-- Claim C8: deserialization substitutes the schema default for every absent
external key: an input dict without afterChartFormat yields a
ScreenReaderSection whose after_chart_format is the DEFAULT_AFTER_CHART_FORMAT
constant, and BarSeries keyword extraction supplies border_color #ffffff,
border_radius 0 and grouping True for the corresponding absent camelCase
keys. -/
theorem c8_default_substitution :
    (∀ d, dictGet d "afterChartFormat" = Option.none →
      ∀ s, ScreenReaderSection.from_dict d = .ok s →
        s.after_chart_format = some DEFAULT_AFTER_CHART_FORMAT) ∧
    (∀ d, dictGet d "borderColor" = Option.none →
      dictGet (BarSeries.getKwargsFromDict d) "border_color" =
        some (.str "#ffffff")) ∧
    (∀ d, dictGet d "borderRadius" = Option.none →
      dictGet (BarSeries.getKwargsFromDict d) "border_radius" =
        some (.num 0)) ∧
    (∀ d, dictGet d "grouping" = Option.none →
      dictGet (BarSeries.getKwargsFromDict d) "grouping" =
        some (.boolean true)) := by
  refine ⟨?_, ?_, ?_, ?_⟩
  · intro d hd s h
    rw [ScreenReaderSection.from_dict] at h
    have hpop : dictPop d "afterChartFormat" (.str DEFAULT_AFTER_CHART_FORMAT) =
        .str DEFAULT_AFTER_CHART_FORMAT := by
      rw [dictPop, hd]
      rfl
    rw [hpop, ScreenReaderSection.fromKwargs, setAfterChartFormat_str] at h
    cases h2 : validateString true (dictPop d "afterChartFormatter" .none) with
    | error e => rw [h2] at h; cases h
    | ok a2 =>
    rw [h2] at h
    cases h3 : validateString true
        (dictPop d "axisRangeDateFormat" (.str DEFAULT_AXIS_RANGE_DATE_FORMAT)) with
    | error e => rw [h3] at h; cases h
    | ok a3 =>
    rw [h3] at h
    cases h4 : setBeforeChartFormat
        (dictPop d "beforeChartFormat" (.str DEFAULT_BEFORE_CHART_FORMAT)) with
    | error e => rw [h4] at h; cases h
    | ok a4 =>
    rw [h4] at h
    cases h5 : validateString true (dictPop d "beforeChartFormatter" .none) with
    | error e => rw [h5] at h; cases h
    | ok a5 =>
    rw [h5] at h
    cases h6 : validateString true (dictPop d "onPlayAsSoundClick" .none) with
    | error e => rw [h6] at h; cases h
    | ok a6 =>
    rw [h6] at h
    cases h7 : validateString true (dictPop d "onViewDataTableClick" .none) with
    | error e => rw [h7] at h; cases h
    | ok a7 =>
    rw [h7] at h
    cases h
    rfl
  · intro d hd
    have hred : dictGet (BarSeries.getKwargsFromDict d) "border_color" =
        some (dictPop d "borderColor" (.str "#ffffff")) := rfl
    rw [hred, dictPop, hd]
    rfl
  · intro d hd
    have hred : dictGet (BarSeries.getKwargsFromDict d) "border_radius" =
        some (dictPop d "borderRadius" (.num 0)) := rfl
    rw [hred, dictPop, hd]
    rfl
  · intro d hd
    have hred : dictGet (BarSeries.getKwargsFromDict d) "grouping" =
        some (dictPop d "grouping" (.boolean true)) := rfl
    rw [hred, dictPop, hd]
    rfl

/-- Claim C8, witness: the default-substitution theorem applied to the empty
input dict. -/
theorem c8_default_substitution_witness :
    ScreenReaderSection.from_dict [] =
      .ok ⟨some DEFAULT_AFTER_CHART_FORMAT, Option.none,
           some DEFAULT_AXIS_RANGE_DATE_FORMAT, some DEFAULT_BEFORE_CHART_FORMAT,
           Option.none, Option.none, Option.none⟩ ∧
    (⟨some DEFAULT_AFTER_CHART_FORMAT, Option.none,
      some DEFAULT_AXIS_RANGE_DATE_FORMAT, some DEFAULT_BEFORE_CHART_FORMAT,
      Option.none, Option.none,
      Option.none⟩ : ScreenReaderSection).after_chart_format =
      some DEFAULT_AFTER_CHART_FORMAT ∧
    dictGet (BarSeries.getKwargsFromDict []) "border_color" =
      some (.str "#ffffff") ∧
    dictGet (BarSeries.getKwargsFromDict []) "border_radius" =
      some (.num 0) ∧
    dictGet (BarSeries.getKwargsFromDict []) "grouping" =
      some (.boolean true) :=
  ⟨rfl, c8_default_substitution.1 [] rfl _ rfl,
   c8_default_substitution.2.1 [] rfl,
   c8_default_substitution.2.2.1 [] rfl,
   c8_default_substitution.2.2.2 [] rfl⟩

theorem rawItems_ne_nil (v : RawDoc) (hv : falsyRaw v = false) :
    rawItems v ≠ [] := by
  cases v <;>
    simp_all [rawItems, falsyRaw, truthyRaw, List.isEmpty_iff, List.map_eq_nil_iff]

/-- Claim C9 (amended): assigning any falsy value to the data property stores
None, and any successful non-falsy assignment stores a non-empty list; for
BaseBarSeries and DependencyWheelSeries the stored elements are points of the
declared type (BarData / WeightedConnectionData by construction), while for
XRangeSeries the stored list may hold bare None placeholders in null slots
rather than points. -/
theorem c9_data_property :
    (∀ v, falsyRaw v = true → BaseBarSeries.setData v = .ok Option.none) ∧
    (∀ v l, BaseBarSeries.setData v = .ok (some l) → l ≠ []) ∧
    (∀ v, falsyRaw v = true → DependencyWheelSeries.setData v = .ok Option.none) ∧
    (∀ v l, DependencyWheelSeries.setData v = .ok (some l) → l ≠ []) ∧
    (∀ v, falsyRaw v = true → XRangeSeries.setData v = .ok Option.none) ∧
    (∀ v l, XRangeSeries.setData v = .ok (some l) → l ≠ []) := by
  refine ⟨?_, ?_, ?_, ?_, ?_, ?_⟩
  · intro v hv
    rw [BaseBarSeries.setData, if_pos hv]
  · intro v l h
    rw [BaseBarSeries.setData] at h
    by_cases hv : falsyRaw v = true
    · rw [if_pos hv] at h
      cases h
    · rw [if_neg hv] at h
      rw [BarData.from_setter, if_neg hv] at h
      cases hm : exceptMapM coerceBarItem (rawItems v) with
      | error e => rw [hm] at h; cases h
      | ok l0 =>
        rw [hm] at h
        injection h with h2
        injection h2 with h3
        subst h3
        intro hnil
        subst hnil
        have hlen := exceptMapM_ok_length _ _ _ hm
        simp at hlen
        exact rawItems_ne_nil v (by simpa using hv)
          (List.eq_nil_of_length_eq_zero hlen.symm)
  · intro v hv
    rw [DependencyWheelSeries.setData, if_pos hv]
  · intro v l h
    rw [DependencyWheelSeries.setData] at h
    by_cases hv : falsyRaw v = true
    · rw [if_pos hv] at h
      cases h
    · rw [if_neg hv] at h
      rw [WeightedConnectionData.from_setter, if_neg hv] at h
      cases hm : exceptMapM coerceConnectionItem (rawItems v) with
      | error e => rw [hm] at h; cases h
      | ok l0 =>
        rw [hm] at h
        injection h with h2
        injection h2 with h3
        subst h3
        intro hnil
        subst hnil
        have hlen := exceptMapM_ok_length _ _ _ hm
        simp at hlen
        exact rawItems_ne_nil v (by simpa using hv)
          (List.eq_nil_of_length_eq_zero hlen.symm)
  · intro v hv
    rw [XRangeSeries.setData, if_pos hv]
  · intro v l h
    rw [XRangeSeries.setData] at h
    by_cases hv : falsyRaw v = true
    · rw [if_pos hv] at h
      cases h
    · rw [if_neg hv] at h
      rw [XRangeData.from_setter, if_neg hv] at h
      cases hm : exceptMapM coerceXRangeItem (rawItems v) with
      | error e => rw [hm] at h; cases h
      | ok l0 =>
        rw [hm] at h
        injection h with h2
        injection h2 with h3
        subst h3
        intro hnil
        subst hnil
        have hlen := exceptMapM_ok_length _ _ _ hm
        simp at hlen
        exact rawItems_ne_nil v (by simpa using hv)
          (List.eq_nil_of_length_eq_zero hlen.symm)

/-- Claim C9, counterexample to the claim as stated: a non-empty assignment
to XRangeSeries.data can store a list whose slot is the bare None
placeholder, not a point of the declared XRangeData type. -/
theorem c9_data_property_counterexample :
    XRangeSeries.setData (.seq [.none]) = .ok (some [Option.none]) :=
  rfl

/-- Claim C9, witness: the amended theorem applied at falsy inputs of every
shape and at a concrete non-empty assignment. -/
theorem c9_data_property_witness :
    BaseBarSeries.setData .none = .ok Option.none ∧
    DependencyWheelSeries.setData (.str "") = .ok Option.none ∧
    XRangeSeries.setData (.num 0) = .ok Option.none ∧
    ([(⟨Option.none, Option.none, Option.none, Option.none, Option.none,
        some 5⟩ : BarData)] ≠ []) :=
  ⟨c9_data_property.1 .none rfl,
   c9_data_property.2.2.1 (.str "") rfl,
   c9_data_property.2.2.2.2.1 (.num 0) rfl,
   c9_data_property.2.1 (.seq [.num 5]) _ rfl⟩
